import Mathlib

/-!
# Verificação formal do núcleo de dimensionamento de `otimizacao-de-trusspoles`

Embedding raso, em Lean 4, das funções centrais do motor de dimensionamento de
barras e ligações parafusadas (arquivos `src/dimensionamento.py`,
`src/utilitarios/ligacoes.py`, `src/utilitarios/verif_normativas.py`,
`src/utilitarios/ferramentas_montantes.py`).

Convenções do embedding:
* números de ponto flutuante do Python são modelados por `ℚ`;
* `math.pi` e `math.sqrt` são parâmetros (`piQ : ℚ`, `sq : ℚ → ℚ`) das funções
  que os usam, pois não têm valor racional exato; as propriedades provadas valem
  para qualquer interpretação desses parâmetros (com as hipóteses explícitas
  usuais, como positividade de `piQ` e de `sq` em argumentos positivos);
* divisões do Python que podem levantar `ZeroDivisionError`, e `math.sqrt` de
  argumento negativo, são modeladas no monad `Except String`;
* dicionários de configuração indexados por tipo de barra viram funções totais
  (acessos `d[k]`) ou funções em `Option` (acessos `d.get(k, padrão)`);
* consultas a tabelas `pandas` (perfis, materiais) viram listas de registros ou
  campos já resolvidos do registro de perfil, conforme anotado em cada definição.
-/

namespace Trusspoles

/-- Divisão à maneira do Python: `a / b` levanta `ZeroDivisionError` quando o
denominador é zero. -/
def divE (a b : ℚ) : Except String ℚ :=
  if b = 0 then .error "ZeroDivisionError" else .ok (a / b)

/-- `math.sqrt` do Python: erro de domínio para argumento negativo; o valor em
argumentos não negativos é dado pelo parâmetro `sq`, que representa a raiz
quadrada real. -/
def sqrtE (sq : ℚ → ℚ) (x : ℚ) : Except String ℚ :=
  if x < 0 then .error "math domain error" else .ok (sq x)

/-- Tipo base de uma barra, resultado da classificação
`"montante" if "montante" in tipo_barra else "diagonal" if ... else "horizontal"`
usada em `ligacoes.py` e `dimensionamento.py`. -/
inductive TipoBase
  | montante
  | diagonal
  | horizontal
  deriving DecidableEq, Repr

/-- Valores da chave `tipo` dos metadados de barra (strings como
`"montante_esq"`, `"montante_dir"`, `"diagonal"`, `"horizontal"`; a string nua
`"montante"` também ocorre como literal no código). -/
inductive TipoBarra
  | montante
  | montante_esq
  | montante_dir
  | diagonal
  | horizontal
  deriving DecidableEq, Repr

/-- Classificação `"montante" in tipo / "diagonal" in tipo / else horizontal`. -/
def TipoBarra.base : TipoBarra → TipoBase
  | .montante | .montante_esq | .montante_dir => .montante
  | .diagonal => .diagonal
  | .horizontal => .horizontal

/-- `tipo_barra.startswith("montante")`. -/
def TipoBarra.ehMontante : TipoBarra → Bool
  | .montante | .montante_esq | .montante_dir => true
  | .diagonal | .horizontal => false

/-- Registro devolvido por `dimensionar_ligacao` (`ligacoes.py`, linhas 108-133). -/
structure Ligacao where
  ligacao_viavel : Bool
  np : Option ℕ
  forca_adm_cisalhamento : ℚ
  forca_adm_esmagamento : ℚ
  tx_lig : ℚ
  d_furo : ℚ
  area_parafuso : ℚ
  fator_fp : Option ℚ
  planos : ℕ
  coef_minoracao : ℚ
  deriving DecidableEq, Repr

/-- Parâmetros de `dimensionar_ligacao` (`ligacoes.py`, linhas 15-28).
`npMinPerfil` é o resultado da consulta `df_perfis[...]["Np mín"]` para
`perfil_nome`: `some n` quando a linha existe e a coluna é legível, `none`
quando a consulta falha (linha vazia, `KeyError`, `ValueError`) — caso em que o
código mantém o valor padrão 4 (linhas 64-73). -/
structure ParamsLig where
  piQ : ℚ
  forca_axial : ℚ
  tipo_barra : TipoBarra
  npMinPerfil : Option ℕ
  espessura_aba : ℚ
  diametros_furos : TipoBase → Option ℚ
  fv_parafuso : ℚ
  fu_peca : ℚ
  limite_parafusos : TipoBase → ℕ
  planos_cisalhamento : TipoBase → ℕ
  fatores_esmagamento : List ℚ
  coef_minoracao : ℚ

/-- `tipo_base` (linhas 52-56). -/
def ParamsLig.tipoBase (p : ParamsLig) : TipoBase := p.tipo_barra.base

/-- `d_furo = diametros_furos.get(tipo_base, 1.59)` (linha 58). -/
def ParamsLig.dFuro (p : ParamsLig) : ℚ := (p.diametros_furos p.tipoBase).getD (159 / 100)

/-- `area_parafuso = math.pi * (d_furo / 2) ** 2` (linha 59). -/
def ParamsLig.areaParafuso (p : ParamsLig) : ℚ := p.piQ * (p.dFuro / 2) ^ 2

/-- `np_max = limite_parafusos[tipo_base]` (linha 60). -/
def ParamsLig.npMax (p : ParamsLig) : ℕ := p.limite_parafusos p.tipoBase

/-- `num_planos_cisalhamento = planos_cisalhamento[tipo_base]` (linha 61). -/
def ParamsLig.numPlanos (p : ParamsLig) : ℕ := p.planos_cisalhamento p.tipoBase

/-- `np_min` (linhas 63-75): montantes usam o mínimo do catálogo com padrão 4;
diagonais e horizontais usam 1. -/
def ParamsLig.npMin (p : ParamsLig) : ℕ :=
  if p.tipoBase = .montante then p.npMinPerfil.getD 4 else 1

/-- `forca_adm_cisalhamento = coef_minoracao * np * area_parafuso * fv_parafuso *
num_planos_cisalhamento` (linhas 82-84). -/
def forcaAdmCisalhamento (coef : ℚ) (np : ℕ) (areaParafuso fv : ℚ) (planos : ℕ) : ℚ :=
  coef * np * areaParafuso * fv * planos

/-- Força admissível ao cisalhamento para `np` parafusos, nos parâmetros `p`. -/
def ParamsLig.fAdmCis (p : ParamsLig) (np : ℕ) : ℚ :=
  forcaAdmCisalhamento p.coef_minoracao np p.areaParafuso p.fv_parafuso p.numPlanos

/-- `tensao_adm_esmagamento = coef_minoracao * fator_fp * fu_peca` (linhas 90-92). -/
def ParamsLig.tensaoAdm (p : ParamsLig) (fator : ℚ) : ℚ :=
  p.coef_minoracao * fator * p.fu_peca

/-- `area_contato = np * d_furo * espessura_aba` (linha 93). -/
def ParamsLig.areaContato (p : ParamsLig) (np : ℕ) : ℚ :=
  (np : ℚ) * p.dFuro * p.espessura_aba

/-- Laço interno de `dimensionar_ligacao` sobre `fatores_esmagamento`
(linhas 89-119): devolve o primeiro fator que satisfaz o esmagamento com
`tx_ligacao ≤ 1.0`, junto com a força admissível ao esmagamento e a taxa. -/
def percorrerFatores (p : ParamsLig) (np : ℕ) (fAdmCis : ℚ) :
    List ℚ → Except String (Option (ℚ × ℚ × ℚ))
  | [] => .ok none
  | fator :: resto => do
    let tensaoAdm := p.tensaoAdm fator
    let areaContato := p.areaContato np
    let tensaoSol ← divE |p.forca_axial| areaContato
    let fAdmEsm := tensaoAdm * areaContato
    if tensaoSol ≤ tensaoAdm then
      let txCis ← divE |p.forca_axial| fAdmCis
      let txEsm ← divE tensaoSol tensaoAdm
      let txLig := max txCis txEsm
      if txLig ≤ 1 then .ok (some (fator, fAdmEsm, txLig))
      else percorrerFatores p np fAdmCis resto
    else percorrerFatores p np fAdmCis resto

/-- Laço externo de `dimensionar_ligacao` sobre `np` (linhas 77-119): pula
números ímpares para montantes, pula `np` que não atende ao cisalhamento e, no
primeiro `np` cujo laço interno encontra um fator, devolve a combinação. -/
def percorrerNps (p : ParamsLig) : List ℕ → Except String (Option (ℕ × ℚ × ℚ × ℚ × ℚ))
  | [] => .ok none
  | np :: resto =>
    if p.tipoBase = .montante ∧ np % 2 ≠ 0 then percorrerNps p resto
    else
      let fAdmCis := p.fAdmCis np
      if |p.forca_axial| > fAdmCis then percorrerNps p resto
      else do
        match ← percorrerFatores p np fAdmCis p.fatores_esmagamento with
        | some (fator, fAdmEsm, txLig) => .ok (some (np, fAdmCis, fator, fAdmEsm, txLig))
        | none => percorrerNps p resto

/-- `dimensionar_ligacao` (`ligacoes.py`, linhas 15-133): procura a primeira
combinação (nº de parafusos, fator de esmagamento) que atende cisalhamento e
esmagamento; sem combinação viável devolve o registro inviável explícito
(forças admissíveis 0, taxa 999, `np = None`). -/
def dimensionar_ligacao (p : ParamsLig) : Except String Ligacao := do
  match ← percorrerNps p (List.range' p.npMin (p.npMax + 1 - p.npMin)) with
  | some (np, fAdmCis, fator, fAdmEsm, txLig) =>
    .ok { ligacao_viavel := true, np := some np, forca_adm_cisalhamento := fAdmCis,
          forca_adm_esmagamento := fAdmEsm, tx_lig := txLig, d_furo := p.dFuro,
          area_parafuso := p.areaParafuso, fator_fp := some fator, planos := p.numPlanos,
          coef_minoracao := p.coef_minoracao }
  | none =>
    .ok { ligacao_viavel := false, np := none, forca_adm_cisalhamento := 0,
          forca_adm_esmagamento := 0, tx_lig := 999, d_furo := p.dFuro,
          area_parafuso := p.areaParafuso, fator_fp := none, planos := p.numPlanos,
          coef_minoracao := p.coef_minoracao }

/-- Hipóteses de boa-formação dos parâmetros de `dimensionar_ligacao`,
satisfeitas em todos os pontos de chamada do repositório (constantes positivas
de configuração, catálogo com espessuras positivas, fatores `1.083…`/`1.25`). -/
def ParamsLig.BemFormado (p : ParamsLig) : Prop :=
  0 < p.piQ ∧ 0 < p.coef_minoracao ∧ 0 < p.fv_parafuso ∧ 0 < p.fu_peca ∧
    0 < p.espessura_aba ∧ 0 < p.dFuro ∧ 1 ≤ p.numPlanos ∧ 1 ≤ p.npMin ∧
    ∀ f ∈ p.fatores_esmagamento, 0 < f

theorem ParamsLig.areaParafuso_pos (p : ParamsLig) (h : p.BemFormado) : 0 < p.areaParafuso := by
  obtain ⟨h1, _, _, _, _, h6, _, _, _⟩ := h
  have : 0 < (p.dFuro / 2) ^ 2 := by positivity
  exact mul_pos h1 this

theorem ParamsLig.fAdmCis_pos (p : ParamsLig) (h : p.BemFormado) {np : ℕ} (hnp : 1 ≤ np) :
    0 < p.fAdmCis np := by
  have ha := p.areaParafuso_pos h
  obtain ⟨h1, h2, h3, _, _, _, h7, _, _⟩ := h
  have hnp' : (0 : ℚ) < np := by exact_mod_cast hnp
  have hpl : (0 : ℚ) < p.numPlanos := by exact_mod_cast h7
  unfold ParamsLig.fAdmCis forcaAdmCisalhamento
  positivity

theorem ParamsLig.areaContato_pos (p : ParamsLig) (h : p.BemFormado) {np : ℕ} (hnp : 1 ≤ np) :
    0 < p.areaContato np := by
  obtain ⟨_, _, _, _, h5, h6, _, _, _⟩ := h
  have hnp' : (0 : ℚ) < np := by exact_mod_cast hnp
  unfold ParamsLig.areaContato
  positivity

theorem ParamsLig.tensaoAdm_pos (p : ParamsLig) (h : p.BemFormado) {f : ℚ} (hf : 0 < f) :
    0 < p.tensaoAdm f := by
  obtain ⟨_, h2, _, h4, _, _, _, _, _⟩ := h
  unfold ParamsLig.tensaoAdm
  positivity

/-- `Except.ok a >>= f = f a` (redução do `do` no monad `Except`). -/
theorem bindOk {ε α β : Type} (a : α) (f : α → Except ε β) :
    (Except.ok a >>= f : Except ε β) = f a := rfl

/-- `Except.error e >>= f = .error e`. -/
theorem bindError {ε α β : Type} (e : ε) (f : α → Except ε β) :
    (Except.error e >>= f : Except ε β) = .error e := rfl

/-- `tensao_solicitante_esmagamento = abs(forca_axial) / area_contato` (linhas 94-96). -/
def ParamsLig.tensaoSol (p : ParamsLig) (np : ℕ) : ℚ := |p.forca_axial| / p.areaContato np

/-- `tx_ligacao = max(tx_cisalhamento, tx_esmagamento)` para o par `(np, fator)`
(linhas 103-105). -/
def ParamsLig.txPar (p : ParamsLig) (np : ℕ) (fator : ℚ) : ℚ :=
  max (|p.forca_axial| / p.fAdmCis np) (p.tensaoSol np / p.tensaoAdm fator)

/-- Condição do laço interno para devolver o fator: esmagamento atendido por
tensão e `tx_ligacao ≤ 1.0` (linhas 102-107). -/
def ParamsLig.atendeFator (p : ParamsLig) (np : ℕ) (fator : ℚ) : Prop :=
  p.tensaoSol np ≤ p.tensaoAdm fator ∧ p.txPar np fator ≤ 1

instance (p : ParamsLig) (np : ℕ) (fator : ℚ) : Decidable (p.atendeFator np fator) :=
  inferInstanceAs (Decidable (_ ∧ _))

/-- Um par `(np, fator)` é aceito pela varredura de `dimensionar_ligacao` quando
não é pulado pela paridade de montante, atende ao cisalhamento e atende ao
esmagamento com taxa ≤ 1. -/
def ParamsLig.atendePar (p : ParamsLig) (np : ℕ) (fator : ℚ) : Prop :=
  ¬(p.tipoBase = .montante ∧ np % 2 ≠ 0) ∧ |p.forca_axial| ≤ p.fAdmCis np ∧
    p.atendeFator np fator

instance (p : ParamsLig) (np : ℕ) (fator : ℚ) : Decidable (p.atendePar np fator) :=
  inferInstanceAs (Decidable (_ ∧ _))

/-- `range(np_min, np_max + 1)` (linha 77). -/
def ParamsLig.rangeNps (p : ParamsLig) : List ℕ := List.range' p.npMin (p.npMax + 1 - p.npMin)

/-- Todos os pares `(np, fator)` na ordem de varredura do código: `np` crescente,
fatores na ordem da lista. -/
def ParamsLig.paresLig (p : ParamsLig) : List (ℕ × ℚ) :=
  p.rangeNps.flatMap fun np => p.fatores_esmagamento.map fun f => (np, f)

/-- O laço interno é exatamente a busca do primeiro fator aceito na ordem da
lista (com parâmetros bem formados: nenhuma exceção é levantada). -/
theorem percorrerFatores_spec (p : ParamsLig) (h : p.BemFormado) (np : ℕ) (hnp : 1 ≤ np) :
    ∀ l : List ℚ, (∀ f ∈ l, 0 < f) →
      percorrerFatores p np (p.fAdmCis np) l =
        .ok ((l.find? fun f => decide (p.atendeFator np f)).map
          fun f => (f, p.tensaoAdm f * p.areaContato np, p.txPar np f)) := by
  have hcis := p.fAdmCis_pos h hnp
  intro l
  induction l with
  | nil => exact fun _ => rfl
  | cons fator resto ih =>
    intro hl
    have hfator : 0 < fator := hl fator (List.mem_cons_self _ _)
    have hresto := ih fun f hf => hl f (List.mem_cons_of_mem _ hf)
    have hac := p.areaContato_pos h hnp
    have hta := p.tensaoAdm_pos h hfator
    by_cases hsol : |p.forca_axial| / p.areaContato np ≤ p.tensaoAdm fator
    · by_cases htx : max (|p.forca_axial| / p.fAdmCis np)
        ((|p.forca_axial| / p.areaContato np) / p.tensaoAdm fator) ≤ 1
      · have hpred : (fun f => decide (p.atendeFator np f)) fator = true := by
          simp only [decide_eq_true_eq]
          exact ⟨hsol, htx⟩
        have hfind : List.find? (fun f => decide (p.atendeFator np f)) (fator :: resto) =
            some fator := List.find?_cons_of_pos _ hpred
        rw [hfind]
        simp only [percorrerFatores, divE, if_neg hac.ne', if_neg hcis.ne', if_neg hta.ne',
          bindOk, if_pos hsol, if_pos htx]
        rfl
      · have hpred : ¬((fun f => decide (p.atendeFator np f)) fator = true) := by
          simp only [decide_eq_true_eq, ParamsLig.atendeFator, not_and]
          intro _
          exact htx
        have hfind : List.find? (fun f => decide (p.atendeFator np f)) (fator :: resto) =
            List.find? (fun f => decide (p.atendeFator np f)) resto :=
          List.find?_cons_of_neg _ hpred
        rw [hfind]
        simp only [percorrerFatores, divE, if_neg hac.ne', if_neg hcis.ne', if_neg hta.ne',
          bindOk, if_pos hsol, if_neg htx]
        exact hresto
    · have hpred : ¬((fun f => decide (p.atendeFator np f)) fator = true) := by
        simp only [decide_eq_true_eq, ParamsLig.atendeFator, not_and]
        intro hcontra
        exact absurd hcontra hsol
      have hfind : List.find? (fun f => decide (p.atendeFator np f)) (fator :: resto) =
          List.find? (fun f => decide (p.atendeFator np f)) resto :=
        List.find?_cons_of_neg _ hpred
      rw [hfind]
      simp only [percorrerFatores, divE, if_neg hac.ne', bindOk, if_neg hsol]
      exact hresto

/-- O laço externo é exatamente a busca do primeiro par `(np, fator)` aceito,
com `np` crescente e fatores na ordem da lista. -/
theorem percorrerNps_spec (p : ParamsLig) (h : p.BemFormado) :
    ∀ l : List ℕ, (∀ n ∈ l, 1 ≤ n) →
      percorrerNps p l =
        .ok (((l.flatMap fun np => p.fatores_esmagamento.map fun f => (np, f)).find?
            fun q => decide (p.atendePar q.1 q.2)).map
          fun q => (q.1, p.fAdmCis q.1, q.2, p.tensaoAdm q.2 * p.areaContato q.1,
            p.txPar q.1 q.2)) := by
  intro l
  induction l with
  | nil => exact fun _ => rfl
  | cons np resto ih =>
    intro hl
    have hnp : 1 ≤ np := hl np (List.mem_cons_self _ _)
    have hresto := ih fun n hn => hl n (List.mem_cons_of_mem _ hn)
    rw [List.flatMap_cons, List.find?_append]
    by_cases hpar : p.tipoBase = .montante ∧ np % 2 ≠ 0
    · have hnone : (p.fatores_esmagamento.map fun f => (np, f)).find?
          (fun q => decide (p.atendePar q.1 q.2)) = none := by
        rw [List.find?_eq_none]
        intro q hq
        simp only [List.mem_map] at hq
        obtain ⟨f, _, rfl⟩ := hq
        simp only [decide_eq_true_eq]
        exact fun hcontra => hcontra.1 hpar
      rw [hnone, Option.none_or]
      simp only [percorrerNps, if_pos hpar]
      exact hresto
    · by_cases hshear : |p.forca_axial| > p.fAdmCis np
      · have hnone : (p.fatores_esmagamento.map fun f => (np, f)).find?
            (fun q => decide (p.atendePar q.1 q.2)) = none := by
          rw [List.find?_eq_none]
          intro q hq
          simp only [List.mem_map] at hq
          obtain ⟨f, _, rfl⟩ := hq
          simp only [decide_eq_true_eq]
          exact fun hcontra => absurd hcontra.2.1 (not_le.mpr hshear)
        rw [hnone, Option.none_or]
        simp only [percorrerNps, if_neg hpar, if_pos hshear]
        exact hresto
      · have hfat := percorrerFatores_spec p h np hnp p.fatores_esmagamento
          h.2.2.2.2.2.2.2.2
        have hpeq : (fun q : ℕ × ℚ => decide (p.atendePar q.1 q.2)) ∘ (fun f : ℚ => (np, f)) =
            fun f : ℚ => decide (p.atendeFator np f) := by
          funext f
          simp only [Function.comp_apply, decide_eq_decide, ParamsLig.atendePar]
          constructor
          · exact fun hx => hx.2.2
          · exact fun hx => ⟨hpar, not_lt.mp hshear, hx⟩
        rw [List.find?_map, hpeq]
        simp only [percorrerNps, if_neg hpar, if_neg hshear]
        rw [hfat]
        cases hfind : p.fatores_esmagamento.find? fun f => decide (p.atendeFator np f) with
        | none =>
          simp only [hfind, Option.map_none', Option.none_or, bindOk]
          exact hresto
        | some f =>
          simp only [hfind, Option.map_some', bindOk]
          rfl

/-- Registro viável construído nas linhas 108-119 de `ligacoes.py`, para o par
aceito `q = (np, fator)`. -/
def ParamsLig.registroViavel (p : ParamsLig) (q : ℕ × ℚ) : Ligacao :=
  { ligacao_viavel := true, np := some q.1, forca_adm_cisalhamento := p.fAdmCis q.1,
    forca_adm_esmagamento := p.tensaoAdm q.2 * p.areaContato q.1, tx_lig := p.txPar q.1 q.2,
    d_furo := p.dFuro, area_parafuso := p.areaParafuso, fator_fp := some q.2,
    planos := p.numPlanos, coef_minoracao := p.coef_minoracao }

/-- Registro inviável construído nas linhas 121-133 de `ligacoes.py`. -/
def ParamsLig.registroInviavel (p : ParamsLig) : Ligacao :=
  { ligacao_viavel := false, np := none, forca_adm_cisalhamento := 0,
    forca_adm_esmagamento := 0, tx_lig := 999, d_furo := p.dFuro,
    area_parafuso := p.areaParafuso, fator_fp := none, planos := p.numPlanos,
    coef_minoracao := p.coef_minoracao }

/-- `dimensionar_ligacao` devolve o registro viável do primeiro par aceito na
ordem de varredura, ou o registro inviável quando nenhum par é aceito; nunca
levanta exceção com parâmetros bem formados. -/
theorem dimensionar_ligacao_spec (p : ParamsLig) (h : p.BemFormado) :
    dimensionar_ligacao p =
      .ok ((p.paresLig.find? fun q => decide (p.atendePar q.1 q.2)).elim
        p.registroInviavel p.registroViavel) := by
  have hr : ∀ n ∈ List.range' p.npMin (p.npMax + 1 - p.npMin), 1 ≤ n := by
    intro n hn
    exact le_trans h.2.2.2.2.2.2.2.1 ((List.mem_range'_1).mp hn).1
  have hspec := percorrerNps_spec p h _ hr
  unfold dimensionar_ligacao
  rw [hspec]
  cases hfind : (ParamsLig.paresLig p).find? fun q => decide (p.atendePar q.1 q.2) with
  | none =>
    rw [show ((List.range' p.npMin (p.npMax + 1 - p.npMin)).flatMap
        fun np => p.fatores_esmagamento.map fun f => (np, f)) = p.paresLig from rfl, hfind]
    rfl
  | some q =>
    rw [show ((List.range' p.npMin (p.npMax + 1 - p.npMin)).flatMap
        fun np => p.fatores_esmagamento.map fun f => (np, f)) = p.paresLig from rfl, hfind]
    rfl

/-- **C2.** Para toda chamada de `dimensionar_ligacao` (com parâmetros bem
formados como nos pontos de chamada do repositório): se nenhuma combinação de
número de parafusos e fator de esmagamento atende simultaneamente cisalhamento
e esmagamento, a chamada não levanta exceção e devolve um registro com forças
admissíveis de cisalhamento e esmagamento exatamente 0, taxa de utilização
exatamente 999 e número de parafusos nulo; e toda chamada cujo registro é
viável tem taxa de utilização ≤ 1.0. -/
theorem claim_C2 (p : ParamsLig) (h : p.BemFormado) :
    ∃ r : Ligacao, dimensionar_ligacao p = .ok r ∧
      (r.ligacao_viavel = false →
        r.forca_adm_cisalhamento = 0 ∧ r.forca_adm_esmagamento = 0 ∧
          r.tx_lig = 999 ∧ r.np = none) ∧
      (r.ligacao_viavel = true → r.tx_lig ≤ 1) := by
  cases hfind : p.paresLig.find? fun q => decide (p.atendePar q.1 q.2) with
  | none =>
    refine ⟨p.registroInviavel, ?_, fun _ => ⟨rfl, rfl, rfl, rfl⟩, fun hv => ?_⟩
    · rw [dimensionar_ligacao_spec p h, hfind]
      rfl
    · simp only [ParamsLig.registroInviavel] at hv
      cases hv
  | some q =>
    have hq := List.find?_some hfind
    simp only [decide_eq_true_eq] at hq
    refine ⟨p.registroViavel q, ?_, fun hv => ?_, fun _ => hq.2.2.2⟩
    · rw [dimensionar_ligacao_spec p h, hfind]
      rfl
    · simp only [ParamsLig.registroViavel] at hv
      cases hv

/-- Witness de C2: avaliação em parâmetros concretos. -/
def pExemplo : ParamsLig :=
  { piQ := 3, forca_axial := 100, tipo_barra := .diagonal, npMinPerfil := none,
    espessura_aba := 1, diametros_furos := fun _ => some 2, fv_parafuso := 100,
    fu_peca := 100, limite_parafusos := fun _ => 4, planos_cisalhamento := fun _ => 1,
    fatores_esmagamento := [13 / 12, 5 / 4], coef_minoracao := 9 / 10 }

theorem pExemplo_bemFormado : pExemplo.BemFormado := by
  refine ⟨by norm_num [pExemplo], by norm_num [pExemplo], by norm_num [pExemplo],
    by norm_num [pExemplo], by norm_num [pExemplo], ?_, ?_, ?_, ?_⟩
  · norm_num [pExemplo, ParamsLig.dFuro, ParamsLig.tipoBase, TipoBarra.base]
  · norm_num [pExemplo, ParamsLig.numPlanos, ParamsLig.tipoBase, TipoBarra.base]
  · simp [pExemplo, ParamsLig.npMin, ParamsLig.tipoBase, TipoBarra.base]
  · intro f hf
    simp only [pExemplo, List.mem_cons, List.not_mem_nil, or_false] at hf
    rcases hf with rfl | rfl <;> norm_num

theorem claim_C2_witness :
    ∃ r : Ligacao, dimensionar_ligacao pExemplo = .ok r ∧
      (r.ligacao_viavel = false →
        r.forca_adm_cisalhamento = 0 ∧ r.forca_adm_esmagamento = 0 ∧
          r.tx_lig = 999 ∧ r.np = none) ∧
      (r.ligacao_viavel = true → r.tx_lig ≤ 1) :=
  claim_C2 pExemplo pExemplo_bemFormado

/-- **C3.** Para todo resultado viável de `dimensionar_ligacao`: o número de
parafusos escolhido é par e pelo menos o mínimo específico do perfil quando a
barra é montante (com `np_min = 4` quando a consulta ao catálogo falha), é pelo
menos 1 para diagonal/horizontal, nunca excede o máximo da classe
(`limite_parafusos`), e o par (nº de parafusos, fator de esmagamento) devolvido
é o primeiro — com `np` crescente e fatores na ordem da lista — que satisfaz
cisalhamento e esmagamento com utilização ≤ 1.0. -/
theorem claim_C3 (p : ParamsLig) (h : p.BemFormado) :
    ∃ r : Ligacao, dimensionar_ligacao p = .ok r ∧
      (p.tipoBase = .montante → p.npMinPerfil = none → p.npMin = 4) ∧
      (r.ligacao_viavel = true →
        ∃ q : ℕ × ℚ,
          p.paresLig.find? (fun q => decide (p.atendePar q.1 q.2)) = some q ∧
          r.np = some q.1 ∧ r.fator_fp = some q.2 ∧
          p.npMin ≤ q.1 ∧ q.1 ≤ p.npMax ∧
          (p.tipoBase = .montante → q.1 % 2 = 0) ∧ 1 ≤ q.1) := by
  have hfb : p.tipoBase = .montante → p.npMinPerfil = none → p.npMin = 4 := by
    intro ht hn
    simp [ParamsLig.npMin, ht, hn]
  cases hfind : p.paresLig.find? fun q => decide (p.atendePar q.1 q.2) with
  | none =>
    refine ⟨p.registroInviavel, ?_, hfb, fun hv => ?_⟩
    · rw [dimensionar_ligacao_spec p h, hfind]
      rfl
    · simp only [ParamsLig.registroInviavel] at hv
      cases hv
  | some q =>
    have hq := List.find?_some hfind
    simp only [decide_eq_true_eq] at hq
    have hmem := List.mem_of_find?_eq_some hfind
    simp only [ParamsLig.paresLig, List.mem_flatMap, List.mem_map] at hmem
    obtain ⟨np, hnp, f, _, hqe⟩ := hmem
    have hq1 : q.1 = np := by rw [← hqe]
    have hrange := (List.mem_range'_1).mp hnp
    refine ⟨p.registroViavel q, ?_, hfb, fun _ => ⟨q, rfl, rfl, rfl, ?_, ?_, ?_, ?_⟩⟩
    · rw [dimensionar_ligacao_spec p h, hfind]
      rfl
    · rw [hq1]
      exact hrange.1
    · rw [hq1]
      omega
    · intro ht
      by_contra hne
      exact hq.1 ⟨ht, hne⟩
    · rw [hq1]
      exact le_trans h.2.2.2.2.2.2.2.1 hrange.1

theorem claim_C3_witness :
    ∃ r : Ligacao, dimensionar_ligacao pExemplo = .ok r ∧
      (pExemplo.tipoBase = .montante → pExemplo.npMinPerfil = none → pExemplo.npMin = 4) ∧
      (r.ligacao_viavel = true →
        ∃ q : ℕ × ℚ,
          pExemplo.paresLig.find? (fun q => decide (pExemplo.atendePar q.1 q.2)) = some q ∧
          r.np = some q.1 ∧ r.fator_fp = some q.2 ∧
          pExemplo.npMin ≤ q.1 ∧ q.1 ≤ pExemplo.npMax ∧
          (pExemplo.tipoBase = .montante → q.1 % 2 = 0) ∧ 1 ≤ q.1) :=
  claim_C3 pExemplo pExemplo_bemFormado

/-- **C9.** Para coeficiente de minoração, área de parafuso, tensão de
cisalhamento do parafuso e número de planos de cisalhamento fixos e positivos,
a força admissível ao cisalhamento calculada dentro de `dimensionar_ligacao`
(`coef × np × area × fv × planos`) é estritamente crescente no número de
parafusos. -/
theorem claim_C9 (coef area fv : ℚ) (planos : ℕ) (hc : 0 < coef) (ha : 0 < area)
    (hf : 0 < fv) (hp : 1 ≤ planos) :
    StrictMono fun np : ℕ => forcaAdmCisalhamento coef np area fv planos := by
  intro a b hab
  have hpl : (0 : ℚ) < planos := by exact_mod_cast hp
  have hcast : (a : ℚ) < b := by exact_mod_cast hab
  simp only [forcaAdmCisalhamento]
  gcongr

theorem claim_C9_witness :
    forcaAdmCisalhamento 1 1 1 1 1 < forcaAdmCisalhamento 1 2 1 1 1 :=
  claim_C9 1 1 1 1 one_pos one_pos one_pos le_rfl (by norm_num : (1 : ℕ) < 2)

/-! ## Avaliador de capacidade axial (`src/utilitarios/verif_normativas.py`) -/

/-- Constantes normativas de `src/utilitarios/constantes.py`. -/
def LIMITE_ESBELTEZ_TRACAO : ℚ := 375

def LIMITE_ESBELTEZ_MONTANTE : ℚ := 150

def LIMITE_ESBELTEZ_DIAG_HORIZ : ℚ := 200

def MODULO_ELASTICIDADE_ACO : ℚ := 2038894

def COEF_MINORACAO_PADRAO : ℚ := 9 / 10

def LIMITE_TAXA_TRABALHO_DIAG_HORIZ : ℚ := 9 / 10

/-- Linha da tabela de perfis. Os campos espelham as colunas consultadas pelo
código: `Perfil`, `A(cm2)`, `rx(cm)`, `rz(cm)`, `b(cm)`, `t(cm)`,
`raio lam.(cm)`, `Wx(cm3)`, `Peso(kg/m)`, `Qtd furos An`, `D máx`, `Np mín` e
`Notas`. Os campos `fy` e `fu` são os valores de material já resolvidos pela
coluna `Aço` via `obter_fy`/`obter_fu` (`io_excel.py`), pois a tabela de
materiais só é consultada através do nome do aço do perfil. -/
structure Perfil where
  nome : String
  a_cm2 : ℚ
  rx_cm : ℚ
  rz_cm : ℚ
  b_cm : ℚ
  t_cm : ℚ
  raio_lam_cm : ℚ
  wx_cm3 : ℚ
  peso : ℚ
  qtd_furos_an : ℚ
  d_max : Option ℚ
  np_min_cat : Option ℕ
  nao_usar_montante : Bool
  fy : ℚ
  fu : ℚ
  deriving DecidableEq, Repr

/-- Tipo de solicitação (linha 312: `"tracao" if forca_axial > 0 else "compressao"`). -/
inductive Solicitacao
  | tracao
  | compressao
  deriving DecidableEq, Repr

/-- `solicitacao = "tracao" if forca_axial > 0 else "compressao"`. -/
def solicitacaoDe (forca_axial : ℚ) : Solicitacao :=
  if 0 < forca_axial then .tracao else .compressao

/-- Registro devolvido por `calcula_tensao_axial_admissivel` (linhas 415-429);
os campos que podem valer `None` no Python são `Option ℚ`. -/
structure VerifAxial where
  solicitacao : Solicitacao
  viavel : Bool
  tensao_solicitante : Option ℚ
  area_bruta : Option ℚ
  area_efetiva : Option ℚ
  forca_axial_admissivel : Option ℚ
  taxa_trabalho : Option ℚ
  esbeltez_corrigida : Option ℚ
  tensao_fy_corrigida : Option ℚ
  fa : Option ℚ
  fa_reduzido : Option ℚ
  ft_admissivel : Option ℚ
  esbeltez_tracao : Option ℚ
  deriving DecidableEq, Repr

/-- `dicionario_inviavel` (linhas 165-191): registro com todos os campos de
capacidade nulos, viabilidade falsa e apenas a solicitação preenchida. -/
def dicionario_inviavel (s : Solicitacao) : VerifAxial :=
  { solicitacao := s, viavel := false, tensao_solicitante := none, area_bruta := none,
    area_efetiva := none, forca_axial_admissivel := none, taxa_trabalho := none,
    esbeltez_corrigida := none, tensao_fy_corrigida := none, fa := none,
    fa_reduzido := none, ft_admissivel := none, esbeltez_tracao := none }

/-- `calcular_esbeltez_corrigida` (linhas 15-44): `L/r` direto para montantes;
para diagonais/horizontais, `60 + 0.5·(L/r)` quando `L/r ≤ 120`, senão `L/r`.
A divisão `comprimento / raio_giracao` não é protegida no código. -/
def calcular_esbeltez_corrigida (tipo_barra : TipoBarra) (comprimento raio_giracao : ℚ) :
    Except String ℚ := do
  let esbeltez ← divE comprimento raio_giracao
  if tipo_barra.ehMontante then .ok esbeltez
  else if esbeltez ≤ 120 then .ok (60 + (1 / 2) * esbeltez)
  else .ok esbeltez

/-- `corrigir_fy_por_flambagem_local` (linhas 47-98): correção de flambagem
local do Fy conforme a razão `w/t`, com limites `209.6/√fy` e `377.28/√fy`
(em MPa; conversão por 10.1972). -/
def corrigir_fy_por_flambagem_local (sq : ℚ → ℚ) (piQ : ℚ) (perfil : Perfil)
    (modulo_elasticidade tensao_fy_nominal : ℚ) : Except String ℚ := do
  let fy_mpa := tensao_fy_nominal / (101972 / 10000)
  let e_mpa := modulo_elasticidade / (101972 / 10000)
  let largura_util := perfil.b_cm - perfil.t_cm - perfil.raio_lam_cm
  let rel_w_t ← divE largura_util perfil.t_cm
  let raiz_fy ← sqrtE sq fy_mpa
  let limite_inferior ← divE (2096 / 10) raiz_fy
  let limite_superior ← divE (37728 / 100) raiz_fy
  let fy_corrigido_mpa ←
    if rel_w_t ≤ limite_inferior then .ok fy_mpa
    else if rel_w_t ≤ limite_superior then do
      let razao ← divE rel_w_t limite_inferior
      .ok ((1677 / 1000 - (677 / 1000) * razao) * fy_mpa)
    else divE ((332 / 10000) * piQ ^ 2 * e_mpa) (rel_w_t ^ 2)
  .ok (fy_corrigido_mpa * (101972 / 10000))

/-- `fa_asce` (linhas 101-123): parábola inelástica abaixo de
`Cc = π·√(2E/Fy)`, Euler acima. -/
def fa_asce (sq : ℚ → ℚ) (piQ : ℚ) (esbeltez_corrigida modulo_elasticidade
    tensao_fy_corrigida : ℚ) : Except String ℚ := do
  let quociente ← divE (2 * modulo_elasticidade) tensao_fy_corrigida
  let raiz ← sqrtE sq quociente
  let cc := piQ * raiz
  if esbeltez_corrigida ≤ cc then do
    let razao ← divE esbeltez_corrigida cc
    .ok ((1 - (1 / 2) * razao ^ 2) * tensao_fy_corrigida)
  else divE (piQ ^ 2 * modulo_elasticidade) (esbeltez_corrigida ^ 2)

/-- `verifica_flexao_simples` (linhas 126-162): montantes e ângulos fora das
faixas passam automaticamente; nas faixas, momento de `100·L/4` comparado ao
momento resistente `Wx·fy·coef`. -/
def verifica_flexao_simples (tipo_barra : TipoBarra) (angulo_graus comprimento
    modulo_resistencia_flexao_x tensao_fy coef_minoracao : ℚ) : Bool :=
  if tipo_barra.ehMontante then true
  else if ¬((0 ≤ angulo_graus ∧ angulo_graus ≤ 45) ∨
      (135 ≤ angulo_graus ∧ angulo_graus ≤ 225) ∨
      (315 ≤ angulo_graus ∧ angulo_graus ≤ 360)) then true
  else (100 * comprimento) / 4 ≤ modulo_resistencia_flexao_x * tensao_fy * coef_minoracao

/-- `calcular_area_liquida_efetiva` (linhas 194-253):
`Ae = (Ag - n·(d + 0.3175)·t)·Ct`, com o número de furos vindo da sobrescrita
`descontos_area_liquida` (quando presente para o tipo base) ou da coluna
`Qtd furos An` do perfil. -/
def calcular_area_liquida_efetiva (perfil : Perfil) (diametro_furo ct : ℚ)
    (tipo_barra : TipoBarra) (descontos_area_liquida : Option (TipoBase → Option ℚ)) : ℚ :=
  let n_furos :=
    match descontos_area_liquida with
    | some d =>
      match d tipo_barra.base with
      | some n => n
      | none => perfil.qtd_furos_an
    | none => perfil.qtd_furos_an
  let diametro_ajustado := diametro_furo + 3175 / 10000
  (perfil.a_cm2 - n_furos * diametro_ajustado * perfil.t_cm) * ct

/-- Raio de giração usado pelo avaliador axial (linhas 317-320): `rx` para
montantes, `rz` para diagonais/horizontais. -/
def raioDe (tipo_barra : TipoBarra) (perfil : Perfil) : ℚ :=
  if tipo_barra.ehMontante then perfil.rx_cm else perfil.rz_cm

/-- `esbeltez_real = comprimento_efetivo / raio_giracao if raio_giracao else 9999`
(linha 326). -/
def esbeltezReal (tipo_barra : TipoBarra) (perfil : Perfil) (comprimento_efetivo : ℚ) : ℚ :=
  if raioDe tipo_barra perfil = 0 then 9999 else comprimento_efetivo / raioDe tipo_barra perfil

/-- `calcula_tensao_axial_admissivel` (linhas 256-429). Os parâmetros `sq` e
`piQ` interpretam `math.sqrt` e `math.pi`; `perfil.fy` é `obter_fy(dados_perfil,
df_materiais)`. -/
def calcula_tensao_axial_admissivel (sq : ℚ → ℚ) (piQ : ℚ) (perfil : Perfil)
    (forca_axial : ℚ) (tipo_barra : TipoBarra) (comprimento_efetivo coef_minoracao : ℚ)
    (diametro_furo : ℚ) (modulo_elasticidade : ℚ)
    (limitar_esbeltez_tracao forcar_verificacao_compressao : Bool)
    (descontos_area_liquida : Option (TipoBase → Option ℚ)) : Except String VerifAxial := do
  -- Bloco 1: definições iniciais
  let solicitacao := solicitacaoDe forca_axial
  let ct : ℚ := if tipo_barra.ehMontante then 1 else 9 / 10
  let area_bruta := perfil.a_cm2
  let raio_giracao := raioDe tipo_barra perfil
  let tensao_fy_nominal := perfil.fy
  let esbeltez_real := esbeltezReal tipo_barra perfil comprimento_efetivo
  -- Bloco 2: limites de esbeltez
  if solicitacao = .compressao ∨ forcar_verificacao_compressao = true then
    if tipo_barra.ehMontante then
      if esbeltez_real > LIMITE_ESBELTEZ_MONTANTE then
        return dicionario_inviavel solicitacao
    else
      let esbeltez_corrigida ← calcular_esbeltez_corrigida tipo_barra comprimento_efetivo
        raio_giracao
      if esbeltez_corrigida > LIMITE_ESBELTEZ_DIAG_HORIZ then
        return dicionario_inviavel solicitacao
  else if solicitacao = .tracao then
    if limitar_esbeltez_tracao = true ∧ esbeltez_real > LIMITE_ESBELTEZ_TRACAO then
      return dicionario_inviavel solicitacao
  -- Bloco 3: área efetiva e tensão solicitante
  let area_efetiva := calcular_area_liquida_efetiva perfil diametro_furo ct tipo_barra
    descontos_area_liquida
  let secao_utilizada := if solicitacao = .compressao then area_bruta else area_efetiva
  let tensao_solicitante :=
    if secao_utilizada = 0 then (10 ^ 12 : ℚ) else |forca_axial| / secao_utilizada
  -- Bloco 4: verificação final
  if solicitacao = .compressao then
    let esbeltez_corrigida ← calcular_esbeltez_corrigida tipo_barra comprimento_efetivo
      raio_giracao
    let tensao_fy_corrigida ← corrigir_fy_por_flambagem_local sq piQ perfil
      modulo_elasticidade tensao_fy_nominal
    let tensao_adm_compressao ← fa_asce sq piQ esbeltez_corrigida modulo_elasticidade
      tensao_fy_corrigida
    let tensao_adm_reduzida := coef_minoracao * tensao_adm_compressao
    let viavel := tensao_solicitante ≤ tensao_adm_reduzida
    let forca_axial_admissivel := tensao_adm_reduzida * area_bruta
    let taxa_trabalho :=
      if forca_axial_admissivel ≠ 0 ∧ forca_axial_admissivel > 1 / 1000000000 then
        |forca_axial| / forca_axial_admissivel
      else 9999
    .ok { solicitacao := solicitacao, viavel := decide viavel,
          tensao_solicitante := some tensao_solicitante, area_bruta := some area_bruta,
          area_efetiva := some area_efetiva,
          forca_axial_admissivel := some forca_axial_admissivel,
          taxa_trabalho := some taxa_trabalho,
          esbeltez_corrigida := some esbeltez_corrigida,
          tensao_fy_corrigida := some tensao_fy_corrigida,
          fa := some tensao_adm_compressao, fa_reduzido := some tensao_adm_reduzida,
          ft_admissivel := none, esbeltez_tracao := none }
  else
    let ft_admissivel := coef_minoracao * tensao_fy_nominal
    let esbeltez_tracao :=
      if raio_giracao = 0 then (9999 : ℚ) else comprimento_efetivo / raio_giracao
    let viavel := tensao_solicitante ≤ ft_admissivel
    let forca_axial_admissivel := ft_admissivel * area_efetiva
    let taxa_trabalho :=
      if forca_axial_admissivel ≠ 0 ∧ forca_axial_admissivel > 1 / 1000000000 then
        |forca_axial| / forca_axial_admissivel
      else 9999
    .ok { solicitacao := solicitacao, viavel := decide viavel,
          tensao_solicitante := some tensao_solicitante, area_bruta := some area_bruta,
          area_efetiva := some area_efetiva,
          forca_axial_admissivel := some forca_axial_admissivel,
          taxa_trabalho := some taxa_trabalho, esbeltez_corrigida := none,
          tensao_fy_corrigida := some tensao_fy_nominal, fa := none, fa_reduzido := none,
          ft_admissivel := some ft_admissivel, esbeltez_tracao := some esbeltez_tracao }

/-- `sq` interpreta `math.sqrt`: positiva em argumentos positivos. -/
def SqPos (sq : ℚ → ℚ) : Prop := ∀ x : ℚ, 0 < x → 0 < sq x

/-- Boa-formação de uma linha de catálogo: espessura positiva, raios de giração
não nulos, tensões de material positivas (propriedades de qualquer catálogo
real de cantoneiras). -/
def PerfilBemFormado (perfil : Perfil) : Prop :=
  0 < perfil.t_cm ∧ perfil.rx_cm ≠ 0 ∧ perfil.rz_cm ≠ 0 ∧ 0 < perfil.fy ∧ 0 < perfil.fu

theorem calcular_esbeltez_spec (tipo_barra : TipoBarra) (comprimento raio : ℚ)
    (hr : raio ≠ 0) :
    calcular_esbeltez_corrigida tipo_barra comprimento raio =
      .ok (if tipo_barra.ehMontante then comprimento / raio
        else if comprimento / raio ≤ 120 then 60 + (1 / 2) * (comprimento / raio)
        else comprimento / raio) := by
  unfold calcular_esbeltez_corrigida
  simp only [divE, if_neg hr, bindOk]
  by_cases hm : tipo_barra.ehMontante <;>
    by_cases h120 : comprimento / raio ≤ 120 <;>
      simp [hm, h120]

/-- A correção de flambagem local nunca levanta exceção e devolve Fy corrigido
positivo, com espessura positiva e Fy nominal positivo. -/
theorem corrigir_fy_ok (sq : ℚ → ℚ) (piQ : ℚ) (perfil : Perfil) (eMod fy : ℚ)
    (hsq : SqPos sq) (hpi : 0 < piQ) (hE : 0 < eMod) (ht : 0 < perfil.t_cm) (hfy : 0 < fy) :
    ∃ y, corrigir_fy_por_flambagem_local sq piQ perfil eMod fy = .ok y ∧ 0 < y := by
  unfold corrigir_fy_por_flambagem_local
  have hfympa : 0 < fy / (101972 / 10000) := by positivity
  have hspos : 0 < sq (fy / (101972 / 10000)) := hsq _ hfympa
  have hinf : 0 < (2096 / 10) / sq (fy / (101972 / 10000)) := by positivity
  simp only [divE, sqrtE, if_neg ht.ne', if_neg (not_lt.mpr hfympa.le), if_neg hspos.ne',
    bindOk]
  set rel := (perfil.b_cm - perfil.t_cm - perfil.raio_lam_cm) / perfil.t_cm with hreldef
  set s := sq (fy / (101972 / 10000)) with hsdef
  by_cases h1 : rel ≤ (2096 / 10) / s
  · rw [if_pos h1]
    exact ⟨_, rfl, by positivity⟩
  · rw [if_neg h1]
    by_cases h2 : rel ≤ (37728 / 100) / s
    · rw [if_pos h2]
      simp only [divE, if_neg hinf.ne', bindOk]
      refine ⟨_, rfl, ?_⟩
      have hrazao : rel / ((2096 / 10) / s) ≤ 9 / 5 := by
        rw [div_le_iff₀ hinf]
        calc rel ≤ (37728 / 100) / s := h2
        _ = 9 / 5 * ((2096 / 10) / s) := by ring
      have hfator : 0 < 1677 / 1000 - (677 / 1000) * (rel / ((2096 / 10) / s)) := by
        nlinarith [hrazao]
      positivity
    · rw [if_neg h2]
      have hrelpos : 0 < rel := lt_trans (by positivity) (not_le.mp h2)
      have hrel2 : (0 : ℚ) < rel ^ 2 := by positivity
      simp only [divE, if_neg hrel2.ne', bindOk]
      exact ⟨_, rfl, by positivity⟩

/-- `fa_asce` nunca levanta exceção com Fy corrigido e módulo de elasticidade
positivos. -/
theorem fa_asce_ok (sq : ℚ → ℚ) (piQ esb eMod fyCorr : ℚ) (hsq : SqPos sq)
    (hpi : 0 < piQ) (hE : 0 < eMod) (hfy : 0 < fyCorr) :
    ∃ fa, fa_asce sq piQ esb eMod fyCorr = .ok fa := by
  unfold fa_asce
  have hq : 0 < 2 * eMod / fyCorr := by positivity
  have hs : 0 < sq (2 * eMod / fyCorr) := hsq _ hq
  have hcc : 0 < piQ * sq (2 * eMod / fyCorr) := by positivity
  simp only [divE, sqrtE, if_neg hfy.ne', if_neg (not_lt.mpr hq.le), bindOk]
  by_cases hb : esb ≤ piQ * sq (2 * eMod / fyCorr)
  · rw [if_pos hb]
    simp only [divE, if_neg hcc.ne', bindOk]
    exact ⟨_, rfl⟩
  · rw [if_neg hb]
    have hesb : esb ≠ 0 := by
      intro h0
      exact hb (h0 ▸ hcc.le)
    have h2 : (esb ^ 2 : ℚ) ≠ 0 := pow_ne_zero _ hesb
    simp only [divE, if_neg h2]
    exact ⟨_, rfl⟩

/-- `pure a = Except.ok a`. -/
theorem pureOk {ε α : Type} (a : α) : (pure a : Except ε α) = Except.ok a := rfl

theorem calcular_esbeltez_ok (tipo_barra : TipoBarra) (comprimento raio : ℚ)
    (hr : raio ≠ 0) :
    ∃ e, calcular_esbeltez_corrigida tipo_barra comprimento raio = .ok e :=
  ⟨_, calcular_esbeltez_spec tipo_barra comprimento raio hr⟩

theorem raioDe_ne (tipo : TipoBarra) (perfil : Perfil) (hrx : perfil.rx_cm ≠ 0)
    (hrz : perfil.rz_cm ≠ 0) : raioDe tipo perfil ≠ 0 := by
  unfold raioDe
  split
  · exact hrx
  · exact hrz

/-- Com catálogo bem formado, o avaliador axial nunca levanta exceção. -/
theorem calcula_ok (sq : ℚ → ℚ) (piQ : ℚ) (perfil : Perfil) (F : ℚ) (tipo : TipoBarra)
    (L coef dF eMod : ℚ) (limitar forcar : Bool) (desc : Option (TipoBase → Option ℚ))
    (hsq : SqPos sq) (hpi : 0 < piQ) (hE : 0 < eMod) (hwf : PerfilBemFormado perfil) :
    ∃ r, calcula_tensao_axial_admissivel sq piQ perfil F tipo L coef dF eMod limitar
      forcar desc = .ok r := by
  obtain ⟨ht, hrx, hrz, hfy, hfu⟩ := hwf
  have hraio := raioDe_ne tipo perfil hrx hrz
  obtain ⟨e, he⟩ := calcular_esbeltez_ok tipo L (raioDe tipo perfil) hraio
  obtain ⟨fyC, hfyC, hfyCpos⟩ := corrigir_fy_ok sq piQ perfil eMod perfil.fy hsq hpi hE ht hfy
  obtain ⟨fa, hfa⟩ := fa_asce_ok sq piQ e eMod fyC hsq hpi hE hfyCpos
  unfold calcula_tensao_axial_admissivel
  simp only [bindOk, pureOk]
  rw [he]
  simp only [bindOk]
  rw [hfyC]
  simp only [bindOk]
  rw [hfa]
  simp only [bindOk]
  by_cases hsol : solicitacaoDe F = Solicitacao.compressao
  · rw [if_pos (Or.inl hsol)]
    by_cases c2 : tipo.ehMontante = true
    · rw [if_pos c2]
      by_cases c3 : esbeltezReal tipo perfil L > LIMITE_ESBELTEZ_MONTANTE
      · rw [if_pos c3]
        exact ⟨_, rfl⟩
      · rw [if_neg c3]
        rw [if_pos hsol]
        exact ⟨_, rfl⟩
    · rw [if_neg c2]
      by_cases c4 : e > LIMITE_ESBELTEZ_DIAG_HORIZ
      · rw [if_pos c4]
        exact ⟨_, rfl⟩
      · rw [if_neg c4]
        rw [if_pos hsol]
        exact ⟨_, rfl⟩
  · have htr : solicitacaoDe F = Solicitacao.tracao := by
      cases hval : solicitacaoDe F
      · rfl
      · exact absurd hval hsol
    by_cases hforca : forcar = true
    · rw [if_pos (Or.inr hforca)]
      by_cases c2 : tipo.ehMontante = true
      · rw [if_pos c2]
        by_cases c3 : esbeltezReal tipo perfil L > LIMITE_ESBELTEZ_MONTANTE
        · rw [if_pos c3]
          exact ⟨_, rfl⟩
        · rw [if_neg c3]
          rw [if_neg hsol]
          exact ⟨_, rfl⟩
      · rw [if_neg c2]
        by_cases c4 : e > LIMITE_ESBELTEZ_DIAG_HORIZ
        · rw [if_pos c4]
          exact ⟨_, rfl⟩
        · rw [if_neg c4]
          rw [if_neg hsol]
          exact ⟨_, rfl⟩
    · have hc1 : ¬(solicitacaoDe F = Solicitacao.compressao ∨ forcar = true) := by
        rintro (h | h)
        · exact hsol h
        · exact hforca h
      rw [if_neg hc1, if_pos htr]
      by_cases c6 : limitar = true ∧ esbeltezReal tipo perfil L > LIMITE_ESBELTEZ_TRACAO
      · rw [if_pos c6]
        exact ⟨_, rfl⟩
      · rw [if_neg c6]
        rw [if_neg hsol]
        exact ⟨_, rfl⟩

/-- Rejeição por esbeltez de montante (linhas 332-335). -/
theorem calcula_inviavel_montante (sq : ℚ → ℚ) (piQ : ℚ) (perfil : Perfil) (F : ℚ)
    (tipo : TipoBarra) (L coef dF eMod : ℚ) (limitar forcar : Bool)
    (desc : Option (TipoBase → Option ℚ))
    (hsol : solicitacaoDe F = Solicitacao.compressao ∨ forcar = true)
    (hm : tipo.ehMontante = true)
    (hesb : esbeltezReal tipo perfil L > LIMITE_ESBELTEZ_MONTANTE) :
    calcula_tensao_axial_admissivel sq piQ perfil F tipo L coef dF eMod limitar forcar desc =
      .ok (dicionario_inviavel (solicitacaoDe F)) := by
  unfold calcula_tensao_axial_admissivel
  simp only [bindOk, pureOk]
  rw [if_pos hsol, if_pos hm, if_pos hesb]

/-- Rejeição por esbeltez corrigida de diagonal/horizontal (linhas 337-343). -/
theorem calcula_inviavel_diag (sq : ℚ → ℚ) (piQ : ℚ) (perfil : Perfil) (F : ℚ)
    (tipo : TipoBarra) (L coef dF eMod : ℚ) (limitar forcar : Bool)
    (desc : Option (TipoBase → Option ℚ))
    (hsol : solicitacaoDe F = Solicitacao.compressao ∨ forcar = true)
    (hm : tipo.ehMontante = false) (ec : ℚ)
    (hec : calcular_esbeltez_corrigida tipo L (raioDe tipo perfil) = .ok ec)
    (h200 : ec > LIMITE_ESBELTEZ_DIAG_HORIZ) :
    calcula_tensao_axial_admissivel sq piQ perfil F tipo L coef dF eMod limitar forcar desc =
      .ok (dicionario_inviavel (solicitacaoDe F)) := by
  have hm' : ¬(tipo.ehMontante = true) := by
    rw [hm]
    exact Bool.false_ne_true
  unfold calcula_tensao_axial_admissivel
  simp only [bindOk, pureOk]
  rw [if_pos hsol, if_neg hm', hec]
  simp only [bindOk]
  rw [if_pos h200]

/-- Rejeição por esbeltez de tração (linhas 345-348), inclusive quando a
verificação de compressão é forçada (caso em que os limites de compressão já
rejeitam a barra, pois esbeltez real > 375 implica esbeltez corrigida > 200 e
esbeltez real > 150). -/
theorem calcula_inviavel_tracao (sq : ℚ → ℚ) (piQ : ℚ) (perfil : Perfil) (F : ℚ)
    (tipo : TipoBarra) (L coef dF eMod : ℚ) (forcar : Bool)
    (desc : Option (TipoBase → Option ℚ)) (hwf : PerfilBemFormado perfil)
    (htr : solicitacaoDe F = Solicitacao.tracao)
    (hesb : esbeltezReal tipo perfil L > LIMITE_ESBELTEZ_TRACAO) :
    calcula_tensao_axial_admissivel sq piQ perfil F tipo L coef dF eMod true forcar desc =
      .ok (dicionario_inviavel (solicitacaoDe F)) := by
  obtain ⟨ht, hrx, hrz, hfy, hfu⟩ := hwf
  have hraio := raioDe_ne tipo perfil hrx hrz
  by_cases hforca : forcar = true
  · by_cases hm : tipo.ehMontante = true
    · refine calcula_inviavel_montante sq piQ perfil F tipo L coef dF eMod true forcar desc
        (Or.inr hforca) hm ?_
      have : LIMITE_ESBELTEZ_MONTANTE < LIMITE_ESBELTEZ_TRACAO := by
        norm_num [LIMITE_ESBELTEZ_MONTANTE, LIMITE_ESBELTEZ_TRACAO]
      exact lt_trans this hesb
    · have hm' : tipo.ehMontante = false := by
        cases hval : tipo.ehMontante
        · rfl
        · exact absurd hval hm
      have hdiv : esbeltezReal tipo perfil L = L / raioDe tipo perfil := by
        unfold esbeltezReal
        rw [if_neg hraio]
      have h375 : L / raioDe tipo perfil > LIMITE_ESBELTEZ_TRACAO := hdiv ▸ hesb
      have h120 : ¬(L / raioDe tipo perfil ≤ 120) := by
        rw [not_le]
        have : (120 : ℚ) < LIMITE_ESBELTEZ_TRACAO := by norm_num [LIMITE_ESBELTEZ_TRACAO]
        exact lt_trans this h375
      have hec := calcular_esbeltez_spec tipo L (raioDe tipo perfil) hraio
      rw [if_neg hm, if_neg h120] at hec
      refine calcula_inviavel_diag sq piQ perfil F tipo L coef dF eMod true forcar desc
        (Or.inr hforca) hm' _ hec ?_
      have : LIMITE_ESBELTEZ_DIAG_HORIZ < LIMITE_ESBELTEZ_TRACAO := by
        norm_num [LIMITE_ESBELTEZ_DIAG_HORIZ, LIMITE_ESBELTEZ_TRACAO]
      exact lt_trans this h375
  · have hsol' : ¬(solicitacaoDe F = Solicitacao.compressao ∨ forcar = true) := by
      rintro (hc | hc)
      · rw [htr] at hc
        cases hc
      · exact hforca hc
    unfold calcula_tensao_axial_admissivel
    simp only [bindOk, pureOk]
    rw [if_neg hsol', if_pos htr]
    simp [hesb, pureOk]

/-- Equivalência da guarda Python `if adm and adm > 1e-9` com `adm > 1e-9`. -/
theorem taxa_if (adm F : ℚ) :
    (if adm ≠ 0 ∧ adm > 1 / 1000000000 then |F| / adm else 9999) =
      (if adm > 1 / 1000000000 then |F| / adm else 9999) := by
  by_cases h : adm > 1 / 1000000000
  · have hne : adm ≠ 0 := by
      have : (0 : ℚ) < adm := lt_trans (by norm_num) h
      exact this.ne'
    rw [if_pos ⟨hne, h⟩, if_pos h]
  · rw [if_neg fun hc => h hc.2, if_neg h]

/-- Fora das rejeições por esbeltez, o registro devolvido tem taxa de trabalho
`|F| / adm` quando `adm > 1e-9` e 9999 caso contrário. -/
theorem calcula_taxa (sq : ℚ → ℚ) (piQ : ℚ) (perfil : Perfil) (F : ℚ) (tipo : TipoBarra)
    (L coef dF eMod : ℚ) (limitar forcar : Bool) (desc : Option (TipoBase → Option ℚ))
    (hsq : SqPos sq) (hpi : 0 < piQ) (hE : 0 < eMod) (hwf : PerfilBemFormado perfil) :
    ∀ r, calcula_tensao_axial_admissivel sq piQ perfil F tipo L coef dF eMod limitar
        forcar desc = .ok r →
      r = dicionario_inviavel (solicitacaoDe F) ∨
        ∃ adm, r.forca_axial_admissivel = some adm ∧
          r.taxa_trabalho = some (if adm > 1 / 1000000000 then |F| / adm else 9999) := by
  obtain ⟨ht, hrx, hrz, hfy, hfu⟩ := hwf
  have hraio := raioDe_ne tipo perfil hrx hrz
  obtain ⟨e, he⟩ := calcular_esbeltez_ok tipo L (raioDe tipo perfil) hraio
  obtain ⟨fyC, hfyC, hfyCpos⟩ := corrigir_fy_ok sq piQ perfil eMod perfil.fy hsq hpi hE ht hfy
  obtain ⟨fa, hfa⟩ := fa_asce_ok sq piQ e eMod fyC hsq hpi hE hfyCpos
  unfold calcula_tensao_axial_admissivel
  simp only [bindOk, pureOk]
  rw [he]
  simp only [bindOk]
  rw [hfyC]
  simp only [bindOk]
  rw [hfa]
  simp only [bindOk]
  by_cases hsol : solicitacaoDe F = Solicitacao.compressao
  · rw [if_pos (Or.inl hsol)]
    by_cases c2 : tipo.ehMontante = true
    · rw [if_pos c2]
      by_cases c3 : esbeltezReal tipo perfil L > LIMITE_ESBELTEZ_MONTANTE
      · rw [if_pos c3]
        intro r hr
        simp only [pureOk, Except.ok.injEq] at hr
        exact Or.inl hr.symm
      · rw [if_neg c3, if_pos hsol]
        intro r hr
        simp only [Except.ok.injEq] at hr
        subst hr
        exact Or.inr ⟨_, rfl, congrArg some (taxa_if _ F)⟩
    · rw [if_neg c2]
      by_cases c4 : e > LIMITE_ESBELTEZ_DIAG_HORIZ
      · rw [if_pos c4]
        intro r hr
        simp only [pureOk, Except.ok.injEq] at hr
        exact Or.inl hr.symm
      · rw [if_neg c4, if_pos hsol]
        intro r hr
        simp only [Except.ok.injEq] at hr
        subst hr
        exact Or.inr ⟨_, rfl, congrArg some (taxa_if _ F)⟩
  · have htr : solicitacaoDe F = Solicitacao.tracao := by
      cases hval : solicitacaoDe F
      · rfl
      · exact absurd hval hsol
    by_cases hforca : forcar = true
    · rw [if_pos (Or.inr hforca)]
      by_cases c2 : tipo.ehMontante = true
      · rw [if_pos c2]
        by_cases c3 : esbeltezReal tipo perfil L > LIMITE_ESBELTEZ_MONTANTE
        · rw [if_pos c3]
          intro r hr
          simp only [pureOk, Except.ok.injEq] at hr
          exact Or.inl hr.symm
        · rw [if_neg c3, if_neg hsol]
          intro r hr
          simp only [Except.ok.injEq] at hr
          subst hr
          exact Or.inr ⟨_, rfl, congrArg some (taxa_if _ F)⟩
      · rw [if_neg c2]
        by_cases c4 : e > LIMITE_ESBELTEZ_DIAG_HORIZ
        · rw [if_pos c4]
          intro r hr
          simp only [pureOk, Except.ok.injEq] at hr
          exact Or.inl hr.symm
        · rw [if_neg c4, if_neg hsol]
          intro r hr
          simp only [Except.ok.injEq] at hr
          subst hr
          exact Or.inr ⟨_, rfl, congrArg some (taxa_if _ F)⟩
    · have hc1 : ¬(solicitacaoDe F = Solicitacao.compressao ∨ forcar = true) := by
        rintro (h | h)
        · exact hsol h
        · exact hforca h
      rw [if_neg hc1, if_pos htr]
      by_cases c6 : limitar = true ∧ esbeltezReal tipo perfil L > LIMITE_ESBELTEZ_TRACAO
      · rw [if_pos c6]
        intro r hr
        simp only [pureOk, Except.ok.injEq] at hr
        exact Or.inl hr.symm
      · rw [if_neg c6, if_neg hsol]
        intro r hr
        simp only [Except.ok.injEq] at hr
        subst hr
        exact Or.inr ⟨_, rfl, congrArg some (taxa_if _ F)⟩

/-- **C7.** Para toda entrada de `calcula_tensao_axial_admissivel` (com catálogo
bem formado e interpretações positivas de `math.sqrt`/`math.pi`): sob compressão
(ou verificação de compressão forçada), esbeltez real > 150 para montante, ou
esbeltez corrigida > 200 para diagonal/horizontal, produz o registro inviável
com todos os campos de capacidade nulos; sob tração com o limite de esbeltez de
tração habilitado, esbeltez real > 375 produz o mesmo registro inviável; caso
contrário a taxa de trabalho devolvida é `|força| / força admissível`, ou 9999
quando a força admissível é aproximadamente zero; e a função nunca levanta
exceção. -/
theorem claim_C7 (sq : ℚ → ℚ) (piQ : ℚ) (perfil : Perfil) (F : ℚ) (tipo : TipoBarra)
    (L coef dF eMod : ℚ) (limitar forcar : Bool) (desc : Option (TipoBase → Option ℚ))
    (hsq : SqPos sq) (hpi : 0 < piQ) (hE : 0 < eMod) (hwf : PerfilBemFormado perfil) :
    (∃ r, calcula_tensao_axial_admissivel sq piQ perfil F tipo L coef dF eMod limitar
      forcar desc = .ok r) ∧
    ((solicitacaoDe F = Solicitacao.compressao ∨ forcar = true) →
      tipo.ehMontante = true → esbeltezReal tipo perfil L > LIMITE_ESBELTEZ_MONTANTE →
      calcula_tensao_axial_admissivel sq piQ perfil F tipo L coef dF eMod limitar forcar
        desc = .ok (dicionario_inviavel (solicitacaoDe F))) ∧
    ((solicitacaoDe F = Solicitacao.compressao ∨ forcar = true) →
      tipo.ehMontante = false →
      ∀ ec, calcular_esbeltez_corrigida tipo L (raioDe tipo perfil) = .ok ec →
        ec > LIMITE_ESBELTEZ_DIAG_HORIZ →
        calcula_tensao_axial_admissivel sq piQ perfil F tipo L coef dF eMod limitar forcar
          desc = .ok (dicionario_inviavel (solicitacaoDe F))) ∧
    (solicitacaoDe F = Solicitacao.tracao →
      esbeltezReal tipo perfil L > LIMITE_ESBELTEZ_TRACAO →
      calcula_tensao_axial_admissivel sq piQ perfil F tipo L coef dF eMod true forcar
        desc = .ok (dicionario_inviavel (solicitacaoDe F))) ∧
    (∀ r, calcula_tensao_axial_admissivel sq piQ perfil F tipo L coef dF eMod limitar
        forcar desc = .ok r →
      r = dicionario_inviavel (solicitacaoDe F) ∨
        ∃ adm, r.forca_axial_admissivel = some adm ∧
          r.taxa_trabalho = some (if adm > 1 / 1000000000 then |F| / adm else 9999)) := by
  refine ⟨calcula_ok sq piQ perfil F tipo L coef dF eMod limitar forcar desc hsq hpi hE hwf,
    calcula_inviavel_montante sq piQ perfil F tipo L coef dF eMod limitar forcar desc,
    ?_, fun htr => calcula_inviavel_tracao sq piQ perfil F tipo L coef dF eMod forcar desc
      hwf htr,
    calcula_taxa sq piQ perfil F tipo L coef dF eMod limitar forcar desc hsq hpi hE hwf⟩
  intro hsol hm ec hec h200
  exact calcula_inviavel_diag sq piQ perfil F tipo L coef dF eMod limitar forcar desc hsol
    hm ec hec h200

/-- Perfil concreto de catálogo para os witnesses. -/
def perfilExemplo : Perfil :=
  { nome := "L 50x50x5", a_cm2 := 48 / 10, rx_cm := 152 / 100, rz_cm := 98 / 100,
    b_cm := 5, t_cm := 1 / 2, raio_lam_cm := 7 / 10, wx_cm3 := 32 / 10, peso := 377 / 100,
    qtd_furos_an := 1, d_max := some (159 / 100), np_min_cat := some 2,
    nao_usar_montante := false, fy := 3515, fu := 4570 }

theorem perfilExemplo_bemFormado : PerfilBemFormado perfilExemplo := by
  refine ⟨by norm_num [perfilExemplo], by norm_num [perfilExemplo],
    by norm_num [perfilExemplo], by norm_num [perfilExemplo], by norm_num [perfilExemplo]⟩

theorem sqPos_id : SqPos fun x : ℚ => x := fun _ hx => hx

theorem claim_C7_witness :
    ∃ r, calcula_tensao_axial_admissivel (fun x : ℚ => x) 3 perfilExemplo 100
      TipoBarra.diagonal 100 (9 / 10) (159 / 100) 2038894 false false none = .ok r :=
  (claim_C7 (fun x : ℚ => x) 3 perfilExemplo 100 TipoBarra.diagonal 100 (9 / 10)
    (159 / 100) 2038894 false false none sqPos_id (by norm_num) (by norm_num)
    perfilExemplo_bemFormado).1

/-- Perfil com raio de giração `rz` nulo, para o contraexemplo de C10. -/
def perfilRaioZero : Perfil :=
  { perfilExemplo with rz_cm := 0 }

/-- Contraexemplo de **C10**: para uma diagonal comprimida com raio de giração
nulo, `calcula_tensao_axial_admissivel` NÃO devolve o sentinela — a chamada a
`calcular_esbeltez_corrigida` (linha 339) divide `comprimento / raio_giracao`
sem proteção (linha 33) e levanta `ZeroDivisionError`, ao contrário do que a
afirmação enuncia. -/
theorem claim_C10_contraexemplo :
    calcula_tensao_axial_admissivel (fun x : ℚ => x) 3 perfilRaioZero (-100)
      TipoBarra.diagonal 100 (9 / 10) (159 / 100) 2038894 false false none =
      .error "ZeroDivisionError" := by
  rfl

/-- **C10 (emendada).** Os guardas próprios do avaliador axial valem: com raio
de giração nulo a esbeltez real é o sentinela 9999; montantes com raio nulo
nunca levantam exceção (qualquer solicitação); sob tração sem verificação de
compressão forçada a função é total e, fora da rejeição por esbeltez, a tensão
solicitante é `1e12` quando a seção efetiva é zero e a taxa de trabalho é 9999
quando a força admissível é zero ou ≤ 1e-9. (A parte falsa da afirmação
original — nunca levantar divisão por zero — falha para diagonais/horizontais
comprimidas com raio nulo, vide o contraexemplo.) -/
theorem claim_C10 :
    (∀ (tipo : TipoBarra) (perfil : Perfil) (L : ℚ), raioDe tipo perfil = 0 →
      esbeltezReal tipo perfil L = 9999) ∧
    (∀ (sq : ℚ → ℚ) (piQ : ℚ) (perfil : Perfil) (F : ℚ) (tipo : TipoBarra)
      (L coef dF eMod : ℚ) (limitar forcar : Bool) (desc : Option (TipoBase → Option ℚ)),
      tipo.ehMontante = true → raioDe tipo perfil = 0 →
      ∃ r, calcula_tensao_axial_admissivel sq piQ perfil F tipo L coef dF eMod limitar
        forcar desc = .ok r) ∧
    (∀ (sq : ℚ → ℚ) (piQ : ℚ) (perfil : Perfil) (F : ℚ) (tipo : TipoBarra)
      (L coef dF eMod : ℚ) (limitar : Bool) (desc : Option (TipoBase → Option ℚ)),
      solicitacaoDe F = Solicitacao.tracao →
      ∃ r, calcula_tensao_axial_admissivel sq piQ perfil F tipo L coef dF eMod limitar
          false desc = .ok r ∧
        (r = dicionario_inviavel Solicitacao.tracao ∨
          (r.tensao_solicitante = some
            (if calcular_area_liquida_efetiva perfil dF
                (if tipo.ehMontante then 1 else 9 / 10) tipo desc = 0 then (10 ^ 12 : ℚ)
              else |F| / calcular_area_liquida_efetiva perfil dF
                (if tipo.ehMontante then 1 else 9 / 10) tipo desc) ∧
           r.forca_axial_admissivel = some (coef * perfil.fy *
             calcular_area_liquida_efetiva perfil dF
               (if tipo.ehMontante then 1 else 9 / 10) tipo desc) ∧
           r.taxa_trabalho = some
             (if coef * perfil.fy * calcular_area_liquida_efetiva perfil dF
                 (if tipo.ehMontante then 1 else 9 / 10) tipo desc > 1 / 1000000000 then
                |F| / (coef * perfil.fy * calcular_area_liquida_efetiva perfil dF
                  (if tipo.ehMontante then 1 else 9 / 10) tipo desc)
              else 9999)))) := by
  refine ⟨?_, ?_, ?_⟩
  · intro tipo perfil L h0
    unfold esbeltezReal
    rw [if_pos h0]
  · intro sq piQ perfil F tipo L coef dF eMod limitar forcar desc hm h0
    have hesb : esbeltezReal tipo perfil L = 9999 := by
      unfold esbeltezReal
      rw [if_pos h0]
    by_cases c1 : solicitacaoDe F = Solicitacao.compressao ∨ forcar = true
    · refine ⟨_, calcula_inviavel_montante sq piQ perfil F tipo L coef dF eMod limitar
        forcar desc c1 hm ?_⟩
      rw [hesb]
      norm_num [LIMITE_ESBELTEZ_MONTANTE]
    · have hsol : ¬(solicitacaoDe F = Solicitacao.compressao) := fun h => c1 (Or.inl h)
      have htr : solicitacaoDe F = Solicitacao.tracao := by
        cases hval : solicitacaoDe F
        · rfl
        · exact absurd hval hsol
      unfold calcula_tensao_axial_admissivel
      simp only [bindOk, pureOk]
      rw [if_neg c1, if_pos htr]
      by_cases c6 : limitar = true ∧ esbeltezReal tipo perfil L > LIMITE_ESBELTEZ_TRACAO
      · rw [if_pos c6]
        exact ⟨_, rfl⟩
      · rw [if_neg c6, if_neg hsol]
        exact ⟨_, rfl⟩
  · intro sq piQ perfil F tipo L coef dF eMod limitar desc htr
    have hsol : ¬(solicitacaoDe F = Solicitacao.compressao) := by
      rw [htr]
      intro h
      cases h
    have hc1 : ¬(solicitacaoDe F = Solicitacao.compressao ∨ false = true) := by
      rintro (h | h)
      · exact hsol h
      · cases h
    unfold calcula_tensao_axial_admissivel
    simp only [bindOk, pureOk]
    rw [if_neg hc1, if_pos htr]
    by_cases c6 : limitar = true ∧ esbeltezReal tipo perfil L > LIMITE_ESBELTEZ_TRACAO
    · rw [if_pos c6]
      exact ⟨_, rfl, Or.inl (by rw [htr])⟩
    · rw [if_neg c6, if_neg hsol]
      refine ⟨_, rfl, Or.inr ⟨?_, rfl, ?_⟩⟩
      · rw [if_neg hsol]
      · exact congrArg some (taxa_if _ F)

theorem claim_C10_witness :
    ∃ r, calcula_tensao_axial_admissivel (fun x : ℚ => x) 3 perfilRaioZero 100
        TipoBarra.diagonal 100 (9 / 10) (159 / 100) 2038894 false false none = .ok r ∧
      (r = dicionario_inviavel Solicitacao.tracao ∨
        (r.tensao_solicitante = some
          (if calcular_area_liquida_efetiva perfilRaioZero (159 / 100)
              (if TipoBarra.diagonal.ehMontante then 1 else 9 / 10) TipoBarra.diagonal
              none = 0 then (10 ^ 12 : ℚ)
            else |(100 : ℚ)| / calcular_area_liquida_efetiva perfilRaioZero (159 / 100)
              (if TipoBarra.diagonal.ehMontante then 1 else 9 / 10) TipoBarra.diagonal
              none) ∧
         r.forca_axial_admissivel = some ((9 / 10) * perfilRaioZero.fy *
           calcular_area_liquida_efetiva perfilRaioZero (159 / 100)
             (if TipoBarra.diagonal.ehMontante then 1 else 9 / 10) TipoBarra.diagonal
             none) ∧
         r.taxa_trabalho = some
           (if (9 / 10) * perfilRaioZero.fy * calcular_area_liquida_efetiva perfilRaioZero
               (159 / 100) (if TipoBarra.diagonal.ehMontante then 1 else 9 / 10)
               TipoBarra.diagonal none > 1 / 1000000000 then
              |(100 : ℚ)| / ((9 / 10) * perfilRaioZero.fy *
                calcular_area_liquida_efetiva perfilRaioZero (159 / 100)
                  (if TipoBarra.diagonal.ehMontante then 1 else 9 / 10)
                  TipoBarra.diagonal none)
            else 9999))) :=
  claim_C10.2.2 (fun x : ℚ => x) 3 perfilRaioZero 100 TipoBarra.diagonal 100 (9 / 10)
    (159 / 100) 2038894 false none (by norm_num [solicitacaoDe])

/-! ## Laço de reforço (`src/dimensionamento.py`, linhas 824-902) -/

/-- Classes de exceção Python relevantes para o desfecho do dimensionamento.
O código do repositório só constrói `ValueError`; a classe
`ReinforcementNotConvergedError` citada na especificação não é definida nem
levantada em nenhum arquivo do repositório e figura aqui apenas para que a
afirmação sobre ela seja enunciável. `excecaoPropagada` representa uma exceção
não capturada (por exemplo `ZeroDivisionError`) que sobe de uma subchamada e
atravessa `dimensionar_barras`, que não possui `try/except`. -/
inductive PyExc
  | valueError (msg : String)
  | reinforcementNotConvergedError (msg : String)
  | excecaoPropagada (msg : String)
  deriving DecidableEq, Repr

/-- `for tentativa in range(10): ... if todos_ok: break` com `else` do `for`
(linhas 828-899), parametrizado pelo corpo de um ciclo (`passo`, linhas
832-894: percorre as barras com ligação necessária, tenta reforçá-las e
devolve o estado atualizado e a flag `todos_ok`). O resultado é
(estado final, convergiu?, número de ciclos executados). -/
def loopReforco {σ : Type} (passo : σ → σ × Bool) : ℕ → σ → σ × Bool × ℕ
  | 0, s => (s, false, 0)
  | n + 1, s =>
    let r := passo s
    if r.2 then (r.1, true, 1)
    else
      let resto := loopReforco passo n r.1
      (resto.1, resto.2.1, resto.2.2 + 1)

/-- Estado do laço de reforço imediatamente antes do ciclo `j`. -/
def estadoAntes {σ : Type} (passo : σ → σ × Bool) (s0 : σ) : ℕ → σ
  | 0 => s0
  | j + 1 => (passo (estadoAntes passo s0 j)).1

theorem estadoAntes_shift {σ : Type} (passo : σ → σ × Bool) (s : σ) :
    ∀ j, estadoAntes passo (passo s).1 j = estadoAntes passo s (j + 1)
  | 0 => rfl
  | j + 1 => by
    show (passo (estadoAntes passo (passo s).1 j)).1 = _
    rw [estadoAntes_shift passo s j]
    rfl

/-- Desfecho do laço (linhas 896-902): `break` em sucesso; sem convergência em
10 ciclos, `raise ValueError("Reforço de ligação não convergiu em 10 ciclos.")`
no modo duro, retorno `(None, None, None)` (representado por `none`) no modo
brando. -/
def reforcoDesfecho {σ : Type} (passo : σ → σ × Bool) (s0 : σ) (interromper : Bool) :
    Except PyExc (Option σ) :=
  let r := loopReforco passo 10 s0
  if r.2.1 then .ok (some r.1)
  else if interromper then
    .error (.valueError "Reforço de ligação não convergiu em 10 ciclos.")
  else .ok none

/-- Caracterização do laço limitado: conta no máximo `n` ciclos, converge
exatamente no primeiro ciclo cujo corpo devolve `todos_ok = True`, e só não
converge quando todos os `n` ciclos falham. -/
theorem loopReforco_spec {σ : Type} (passo : σ → σ × Bool) :
    ∀ (n : ℕ) (s : σ),
      (loopReforco passo n s).2.2 ≤ n ∧
      ((loopReforco passo n s).2.1 = true →
        ∃ j < n, (passo (estadoAntes passo s j)).2 = true ∧
          (loopReforco passo n s).2.2 = j + 1 ∧
          ∀ i < j, (passo (estadoAntes passo s i)).2 = false) ∧
      ((loopReforco passo n s).2.1 = false →
        (loopReforco passo n s).2.2 = n ∧
        ∀ i < n, (passo (estadoAntes passo s i)).2 = false) := by
  intro n
  induction n with
  | zero =>
    intro s
    refine ⟨le_refl _, fun hc => ?_, fun _ => ⟨rfl, fun i hi => absurd hi (Nat.not_lt_zero i)⟩⟩
    cases hc
  | succ n ih =>
    intro s
    by_cases hr : (passo s).2 = true
    · have hloop : loopReforco passo (n + 1) s = ((passo s).1, true, 1) := by
        show (if (passo s).2 = true then ((passo s).1, true, 1)
          else ((loopReforco passo n (passo s).1).1, (loopReforco passo n (passo s).1).2.1,
            (loopReforco passo n (passo s).1).2.2 + 1)) = _
        rw [if_pos hr]
      rw [hloop]
      refine ⟨by show (1 : ℕ) ≤ n + 1; omega,
        fun _ => ⟨0, Nat.succ_pos n, hr, rfl, fun i hi => absurd hi (Nat.not_lt_zero i)⟩,
        fun hc => ?_⟩
      simp at hc
    · have hrf : (passo s).2 = false := by
        cases hval : (passo s).2
        · rfl
        · exact absurd hval hr
      have hloop : loopReforco passo (n + 1) s =
          ((loopReforco passo n (passo s).1).1, (loopReforco passo n (passo s).1).2.1,
            (loopReforco passo n (passo s).1).2.2 + 1) := by
        show (if (passo s).2 = true then ((passo s).1, true, 1)
          else ((loopReforco passo n (passo s).1).1, (loopReforco passo n (passo s).1).2.1,
            (loopReforco passo n (passo s).1).2.2 + 1)) = _
        rw [if_neg hr]
      obtain ⟨ih1, ih2, ih3⟩ := ih (passo s).1
      rw [hloop]
      refine ⟨by show (loopReforco passo n (passo s).1).2.2 + 1 ≤ n + 1; omega,
        fun hc => ?_, fun hc => ?_⟩
      · obtain ⟨j, hj, hok, hcount, hprev⟩ := ih2 hc
        refine ⟨j + 1, by omega, ?_,
          by show (loopReforco passo n (passo s).1).2.2 + 1 = j + 1 + 1; omega, ?_⟩
        · rw [← estadoAntes_shift passo s j]
          exact hok
        · intro i hi
          cases i with
          | zero => exact hrf
          | succ i' =>
            rw [← estadoAntes_shift passo s i']
            exact hprev i' (by omega)
      · obtain ⟨hcount, hprev⟩ := ih3 hc
        refine ⟨by show (loopReforco passo n (passo s).1).2.2 + 1 = n + 1; omega,
          fun i hi => ?_⟩
        cases i with
        | zero => exact hrf
        | succ i' =>
          rw [← estadoAntes_shift passo s i']
          exact hprev i' (by omega)

/-- O desfecho do reforço é um erro da classe `ReinforcementNotConvergedError`? -/
def ehErroReforcoTipado {σ : Type} : Except PyExc (Option σ) → Bool
  | .error (.reinforcementNotConvergedError _) => true
  | _ => false

/-- Contraexemplo de **C4**: com um corpo de ciclo que nunca completa sem barra
reprovada e interrupção habilitada, o código levanta `ValueError` simples
(linha 901) — não um erro tipado `ReinforcementNotConvergedError`, classe que
não existe no repositório. -/
theorem claim_C4_contraexemplo :
    reforcoDesfecho (fun s : Unit => (s, false)) () true =
        .error (.valueError "Reforço de ligação não convergiu em 10 ciclos.") ∧
      ehErroReforcoTipado (reforcoDesfecho (fun s : Unit => (s, false)) () true) = false := by
  constructor <;> rfl

/-- **C4 (emendada).** O laço de reforço executa no máximo 10 ciclos; para
assim que um ciclo completo termina sem barra reprovada (isto é, converge
exatamente no primeiro ciclo bem-sucedido); e se os 10 ciclos se esgotam sem
convergência o caso é tratado como falha dura, levantando `ValueError` com a
mensagem de não convergência (o código não possui o erro tipado
`ReinforcementNotConvergedError` citado) quando a interrupção está habilitada
e devolvendo o resultado sem solução quando desabilitada. -/
theorem claim_C4 {σ : Type} (passo : σ → σ × Bool) (s0 : σ) :
    (loopReforco passo 10 s0).2.2 ≤ 10 ∧
    ((loopReforco passo 10 s0).2.1 = true →
      ∃ j < 10, (passo (estadoAntes passo s0 j)).2 = true ∧
        (loopReforco passo 10 s0).2.2 = j + 1 ∧
        ∀ i < j, (passo (estadoAntes passo s0 i)).2 = false) ∧
    ((loopReforco passo 10 s0).2.1 = false →
      (loopReforco passo 10 s0).2.2 = 10 ∧
      reforcoDesfecho passo s0 true =
        .error (.valueError "Reforço de ligação não convergiu em 10 ciclos.") ∧
      reforcoDesfecho passo s0 false = .ok none) := by
  obtain ⟨h1, h2, h3⟩ := loopReforco_spec passo 10 s0
  refine ⟨h1, h2, fun hc => ⟨(h3 hc).1, ?_, ?_⟩⟩
  · simp [reforcoDesfecho, hc]
  · simp [reforcoDesfecho, hc]

theorem claim_C4_witness :
    (loopReforco (fun s : Unit => (s, false)) 10 ()).2.2 = 10 ∧
    reforcoDesfecho (fun s : Unit => (s, false)) () true =
      .error (.valueError "Reforço de ligação não convergiu em 10 ciclos.") ∧
    reforcoDesfecho (fun s : Unit => (s, false)) () false = .ok none :=
  (claim_C4 (fun s : Unit => (s, false)) ()).2.2 (by rfl)

/-! ## Varredura de perfis por hipótese crítica
(`src/dimensionamento.py`, linhas 401-604) -/

/-- Parâmetros fixos da varredura de perfis para uma barra e uma hipótese
crítica (linhas 401-407 e contexto das linhas 373-399). -/
structure ParamsVarredura where
  sq : ℚ → ℚ
  piQ : ℚ
  forca_axial : ℚ
  tipo_barra : TipoBarra
  comprimento : ℚ
  angulo : ℚ
  coef_minoracao : ℚ
  diametros_furos : TipoBase → Option ℚ
  descontos_area_liquida : Option (TipoBase → Option ℚ)
  limitar_esbeltez_tracao : Bool
  forcar_verificacao_compressao : Bool
  fv_parafuso : ℚ
  limite_parafusos : TipoBase → ℕ
  planos_cisalhamento : TipoBase → ℕ
  fatores_esmagamento : List ℚ

/-- `diametro_furo = diametros_furos.get(tipo_base, 1.59)` (linhas 411-418). -/
def ParamsVarredura.dFuro (v : ParamsVarredura) : ℚ :=
  (v.diametros_furos v.tipo_barra.base).getD (159 / 100)

/-- Parâmetros da chamada a `dimensionar_ligacao` dentro da varredura
(linhas 469-482); o `np_min_cat` do perfil modela a consulta de `Np mín` que
`dimensionar_ligacao` faz em `df_perfis` para `dados_perfil["Perfil"]`. -/
def ParamsVarredura.paramsLig (v : ParamsVarredura) (perfil : Perfil) : ParamsLig :=
  { piQ := v.piQ, forca_axial := v.forca_axial, tipo_barra := v.tipo_barra,
    npMinPerfil := perfil.np_min_cat, espessura_aba := perfil.t_cm,
    diametros_furos := v.diametros_furos, fv_parafuso := v.fv_parafuso,
    fu_peca := perfil.fu, limite_parafusos := v.limite_parafusos,
    planos_cisalhamento := v.planos_cisalhamento,
    fatores_esmagamento := v.fatores_esmagamento, coef_minoracao := v.coef_minoracao }

/-- `tx_lig = max(F/Fc if Fc else 999, F/Fe if Fe else 999)` (linhas 490-496). -/
def txLigDe (forca_normal : ℚ) (lig : Ligacao) : ℚ :=
  max (if lig.forca_adm_cisalhamento = 0 then 999
        else forca_normal / lig.forca_adm_cisalhamento)
      (if lig.forca_adm_esmagamento = 0 then 999
        else forca_normal / lig.forca_adm_esmagamento)

/-- Perfil aprovado em todas as verificações da varredura (linhas 508-521). -/
structure PerfilViavel where
  perfil : Perfil
  verificacao_axial : VerifAxial
  verificacao_ligacao : Option Ligacao
  deriving Repr

/-- Avaliação de um perfil do catálogo na varredura (corpo do laço das linhas
409-521): limite absoluto `w/t ≤ 25`, resistência axial, flexão simples,
ligação mínima (só diagonais/horizontais: força admissível nula, `tx_lig > 1`)
e taxa de trabalho ≤ 0,90 para diagonais/horizontais. `none` = perfil
rejeitado (`continue`). -/
def avaliarPerfil (v : ParamsVarredura) (perfil : Perfil) :
    Except String (Option PerfilViavel) := do
  let rel_w_t ← divE (perfil.b_cm - perfil.t_cm - perfil.raio_lam_cm) perfil.t_cm
  if rel_w_t > 25 then return none
  let verificacao_axial ← calcula_tensao_axial_admissivel v.sq v.piQ perfil v.forca_axial
    v.tipo_barra v.comprimento v.coef_minoracao v.dFuro MODULO_ELASTICIDADE_ACO
    v.limitar_esbeltez_tracao v.forcar_verificacao_compressao v.descontos_area_liquida
  if verificacao_axial.viavel = false then return none
  let flexao_ok := verifica_flexao_simples v.tipo_barra v.angulo v.comprimento
    perfil.wx_cm3 perfil.fy v.coef_minoracao
  if flexao_ok = false then return none
  -- `taxa_trabalho` nunca é `None` aqui (o registro passou por `viavel`),
  -- de modo que o `getD 0` espelha a comparação numérica do Python.
  let taxa_alta := decide ((v.tipo_barra = .diagonal ∨ v.tipo_barra = .horizontal) ∧
    verificacao_axial.taxa_trabalho.getD 0 > LIMITE_TAXA_TRABALHO_DIAG_HORIZ)
  if v.tipo_barra.ehMontante = false then
    let verificacao_ligacao ← dimensionar_ligacao (v.paramsLig perfil)
    if verificacao_ligacao.forca_adm_cisalhamento = 0 ∨
        verificacao_ligacao.forca_adm_esmagamento = 0 then
      return none
    let tx_lig := txLigDe |v.forca_axial| verificacao_ligacao
    if tx_lig > 1 then return none
    if taxa_alta then return none
    return some
      { perfil := perfil, verificacao_axial := verificacao_axial,
        verificacao_ligacao := some verificacao_ligacao }
  else
    if taxa_alta then return none
    return some
      { perfil := perfil, verificacao_axial := verificacao_axial,
        verificacao_ligacao := none }

/-- Acúmulo de `perfis_viaveis` sobre o catálogo (laço das linhas 409-521). -/
def varrerPerfis (v : ParamsVarredura) : List Perfil → Except String (List PerfilViavel)
  | [] => .ok []
  | perfil :: resto => do
    let o ← avaliarPerfil v perfil
    let rs ← varrerPerfis v resto
    match o with
    | some pv => .ok (pv :: rs)
    | none => .ok rs

/-- `min(perfis_viaveis, key=lambda x: x["peso"])` (linhas 524-535): `none`
quando não há sobreviventes (hipótese marcada "NENHUM"); senão o primeiro
mínimo por peso. -/
def melhorPerfil : List PerfilViavel → Option PerfilViavel
  | [] => none
  | pv :: resto =>
    some (resto.foldl (fun acc x => if x.perfil.peso < acc.perfil.peso then x else acc) pv)

/-- Forma proposicional da sobrevivência de um perfil às rejeições da varredura
(linhas 429-505). -/
def Sobrevive (v : ParamsVarredura) (perfil : Perfil) : Prop :=
  ¬((perfil.b_cm - perfil.t_cm - perfil.raio_lam_cm) / perfil.t_cm > 25) ∧
  (∃ va : VerifAxial,
    calcula_tensao_axial_admissivel v.sq v.piQ perfil v.forca_axial v.tipo_barra
        v.comprimento v.coef_minoracao v.dFuro MODULO_ELASTICIDADE_ACO
        v.limitar_esbeltez_tracao v.forcar_verificacao_compressao
        v.descontos_area_liquida = .ok va ∧
      va.viavel = true ∧
      ((v.tipo_barra = .diagonal ∨ v.tipo_barra = .horizontal) →
        va.taxa_trabalho.getD 0 ≤ LIMITE_TAXA_TRABALHO_DIAG_HORIZ)) ∧
  verifica_flexao_simples v.tipo_barra v.angulo v.comprimento perfil.wx_cm3 perfil.fy
    v.coef_minoracao = true ∧
  (v.tipo_barra.ehMontante = false →
    ∃ lig : Ligacao, dimensionar_ligacao (v.paramsLig perfil) = .ok lig ∧
      lig.forca_adm_cisalhamento ≠ 0 ∧ lig.forca_adm_esmagamento ≠ 0 ∧
      txLigDe |v.forca_axial| lig ≤ 1)

/-- Hipóteses de boa-formação da varredura (constantes de configuração
positivas), satisfeitas nos pontos de chamada do repositório. -/
def ParamsVarredura.BemFormado (v : ParamsVarredura) : Prop :=
  SqPos v.sq ∧ 0 < v.piQ ∧ 0 < v.coef_minoracao ∧ 0 < v.fv_parafuso ∧
    0 < v.dFuro ∧ (∀ t : TipoBase, 1 ≤ v.planos_cisalhamento t) ∧
    ∀ f ∈ v.fatores_esmagamento, 0 < f

theorem ParamsVarredura.paramsLig_dFuro (v : ParamsVarredura) (perfil : Perfil) :
    (v.paramsLig perfil).dFuro = v.dFuro := rfl

theorem ParamsVarredura.paramsLig_bemFormado (v : ParamsVarredura) (perfil : Perfil)
    (hv : v.BemFormado) (hp : PerfilBemFormado perfil)
    (hm : v.tipo_barra.ehMontante = false) : (v.paramsLig perfil).BemFormado := by
  obtain ⟨hsq, hpi, hcoef, hfv, hdf, hpl, hf⟩ := hv
  obtain ⟨ht, _, _, _, hfu⟩ := hp
  refine ⟨hpi, hcoef, hfv, hfu, ht, hdf, hpl _, ?_, hf⟩
  have hbase : (v.paramsLig perfil).tipoBase ≠ TipoBase.montante := by
    cases htb : v.tipo_barra <;>
      simp_all [ParamsLig.tipoBase, ParamsVarredura.paramsLig, TipoBarra.base,
        TipoBarra.ehMontante]
  simp [ParamsLig.npMin, hbase]

theorem moduloAcoPos : 0 < MODULO_ELASTICIDADE_ACO := by
  unfold MODULO_ELASTICIDADE_ACO
  norm_num

/-- A avaliação de um perfil decide exatamente `Sobrevive`: devolve `some` (com
o próprio perfil) para os sobreviventes e `none` para os rejeitados, sem
exceção. -/
theorem avaliarPerfil_spec (v : ParamsVarredura) (perfil : Perfil)
    (hv : v.BemFormado) (hp : PerfilBemFormado perfil) :
    (avaliarPerfil v perfil = .ok none ∧ ¬Sobrevive v perfil) ∨
    (∃ pv : PerfilViavel, avaliarPerfil v perfil = .ok (some pv) ∧ pv.perfil = perfil ∧
      Sobrevive v perfil) := by
  have ht : 0 < perfil.t_cm := hp.1
  obtain ⟨va, hva⟩ := calcula_ok v.sq v.piQ perfil v.forca_axial v.tipo_barra
    v.comprimento v.coef_minoracao v.dFuro MODULO_ELASTICIDADE_ACO
    v.limitar_esbeltez_tracao v.forcar_verificacao_compressao v.descontos_area_liquida
    hv.1 hv.2.1 moduloAcoPos hp
  unfold avaliarPerfil
  simp only [divE, if_neg ht.ne', bindOk, pureOk]
  by_cases hrel : (perfil.b_cm - perfil.t_cm - perfil.raio_lam_cm) / perfil.t_cm > 25
  · rw [if_pos hrel]
    exact Or.inl ⟨rfl, fun hs => hs.1 hrel⟩
  · rw [if_neg hrel, hva]
    simp only [bindOk]
    by_cases hviav : va.viavel = false
    · rw [if_pos hviav]
      refine Or.inl ⟨rfl, fun hs => ?_⟩
      obtain ⟨-, ⟨va', hva', hviav', -⟩, -, -⟩ := hs
      rw [hva] at hva'
      simp only [Except.ok.injEq] at hva'
      rw [← hva'] at hviav'
      rw [hviav'] at hviav
      cases hviav
    · have hviavT : va.viavel = true := by
        cases hval : va.viavel
        · exact absurd hval hviav
        · rfl
      rw [if_neg hviav]
      by_cases hflex : verifica_flexao_simples v.tipo_barra v.angulo v.comprimento
          perfil.wx_cm3 perfil.fy v.coef_minoracao = false
      · rw [if_pos hflex]
        refine Or.inl ⟨rfl, fun hs => ?_⟩
        rw [hs.2.2.1] at hflex
        cases hflex
      · have hflexT : verifica_flexao_simples v.tipo_barra v.angulo v.comprimento
            perfil.wx_cm3 perfil.fy v.coef_minoracao = true := by
          cases hval : verifica_flexao_simples v.tipo_barra v.angulo v.comprimento
              perfil.wx_cm3 perfil.fy v.coef_minoracao
          · exact absurd hval hflex
          · rfl
        rw [if_neg hflex]
        by_cases hm : v.tipo_barra.ehMontante = false
        · rw [if_pos hm]
          have hbf := v.paramsLig_bemFormado perfil hv hp hm
          have hlig := dimensionar_ligacao_spec (v.paramsLig perfil) hbf
          rw [hlig]
          simp only [bindOk]
          set ligVal := (((v.paramsLig perfil).paresLig.find? fun q =>
            decide ((v.paramsLig perfil).atendePar q.1 q.2)).elim
            (v.paramsLig perfil).registroInviavel
            (v.paramsLig perfil).registroViavel) with hligVal
          by_cases hfz : ligVal.forca_adm_cisalhamento = 0 ∨ ligVal.forca_adm_esmagamento = 0
          · rw [if_pos hfz]
            refine Or.inl ⟨rfl, fun hs => ?_⟩
            obtain ⟨lig', hlig', hfc', hfe', -⟩ := hs.2.2.2 hm
            rw [hlig] at hlig'
            simp only [Except.ok.injEq] at hlig'
            rw [← hlig'] at hfc' hfe'
            rcases hfz with hfz | hfz
            · exact hfc' hfz
            · exact hfe' hfz
          · rw [if_neg hfz]
            by_cases htx : txLigDe |v.forca_axial| ligVal > 1
            · rw [if_pos htx]
              refine Or.inl ⟨rfl, fun hs => ?_⟩
              obtain ⟨lig', hlig', -, -, htx'⟩ := hs.2.2.2 hm
              rw [hlig] at hlig'
              simp only [Except.ok.injEq] at hlig'
              rw [← hlig'] at htx'
              exact absurd htx (not_lt.mpr htx')
            · by_cases htaxa : decide ((v.tipo_barra = .diagonal ∨
                  v.tipo_barra = .horizontal) ∧
                  va.taxa_trabalho.getD 0 > LIMITE_TAXA_TRABALHO_DIAG_HORIZ) = true
              · rw [if_neg htx, if_pos htaxa]
                simp only [decide_eq_true_eq] at htaxa
                refine Or.inl ⟨rfl, fun hs => ?_⟩
                obtain ⟨-, ⟨va', hva', -, hlim'⟩, -, -⟩ := hs
                rw [hva] at hva'
                simp only [Except.ok.injEq] at hva'
                rw [← hva'] at hlim'
                exact absurd (hlim' htaxa.1) (not_le.mpr htaxa.2)
              · rw [if_neg htx, if_neg htaxa]
                simp only [decide_eq_true_eq, not_and, not_lt] at htaxa
                refine Or.inr ⟨_, rfl, rfl, hrel, ⟨va, hva, hviavT, htaxa⟩, hflexT,
                  fun _ => ⟨ligVal, hlig, ?_, ?_, not_lt.mp htx⟩⟩
                · exact fun hc => hfz (Or.inl hc)
                · exact fun hc => hfz (Or.inr hc)
        · have hmT : v.tipo_barra.ehMontante = true := by
            cases hval : v.tipo_barra.ehMontante
            · exact absurd hval hm
            · rfl
          have hdh : ¬(v.tipo_barra = .diagonal ∨ v.tipo_barra = .horizontal) := by
            cases htb : v.tipo_barra <;> simp_all [TipoBarra.ehMontante]
          have htaxa : ¬(decide ((v.tipo_barra = .diagonal ∨
              v.tipo_barra = .horizontal) ∧
              va.taxa_trabalho.getD 0 > LIMITE_TAXA_TRABALHO_DIAG_HORIZ) = true) := by
            simp only [decide_eq_true_eq, not_and]
            exact fun hc => absurd hc hdh
          rw [if_neg hm, if_neg htaxa]
          refine Or.inr ⟨_, rfl, rfl, hrel, ⟨va, hva, hviavT, fun hc => absurd hc hdh⟩,
            hflexT, fun hc => absurd hc (by rw [hmT]; simp)⟩

/-- A varredura acumula exatamente os sobreviventes, na ordem do catálogo. -/
theorem varrerPerfis_spec (v : ParamsVarredura) (hv : v.BemFormado) :
    ∀ perfis : List Perfil, (∀ p ∈ perfis, PerfilBemFormado p) →
      ∃ vs, varrerPerfis v perfis = .ok vs ∧
        (∀ pv ∈ vs, pv.perfil ∈ perfis ∧ Sobrevive v pv.perfil) ∧
        (∀ p ∈ perfis, Sobrevive v p → ∃ pv ∈ vs, pv.perfil = p) ∧
        (vs = [] ↔ ∀ p ∈ perfis, ¬Sobrevive v p) := by
  intro perfis
  induction perfis with
  | nil =>
    exact fun _ => ⟨[], rfl, by simp, by simp, by simp⟩
  | cons p resto ih =>
    intro hbf
    obtain ⟨vs, hvs, hmem, hconv, hvazio⟩ := ih fun q hq => hbf q (List.mem_cons_of_mem _ hq)
    rcases avaliarPerfil_spec v p hv (hbf p (List.mem_cons_self _ _)) with
      ⟨hav, hnsob⟩ | ⟨pv, hav, hpv, hsob⟩
    · refine ⟨vs, ?_, ?_, ?_, ?_⟩
      · unfold varrerPerfis
        rw [hav]
        simp only [bindOk]
        rw [hvs]
        rfl
      · exact fun pv hpvm =>
          ⟨List.mem_cons_of_mem _ (hmem pv hpvm).1, (hmem pv hpvm).2⟩
      · intro q hq hsq
        rcases List.mem_cons.mp hq with rfl | hq'
        · exact absurd hsq hnsob
        · exact hconv q hq' hsq
      · constructor
        · intro hnil q hq
          rcases List.mem_cons.mp hq with rfl | hq'
          · exact hnsob
          · exact hvazio.mp hnil q hq'
        · intro hall
          exact hvazio.mpr fun q hq => hall q (List.mem_cons_of_mem _ hq)
    · refine ⟨pv :: vs, ?_, ?_, ?_, ?_⟩
      · unfold varrerPerfis
        rw [hav]
        simp only [bindOk]
        rw [hvs]
        rfl
      · intro qv hqv
        rcases List.mem_cons.mp hqv with rfl | hqv'
        · exact ⟨hpv ▸ List.mem_cons_self _ _, hpv ▸ hsob⟩
        · exact ⟨List.mem_cons_of_mem _ (hmem qv hqv').1, (hmem qv hqv').2⟩
      · intro q hq hsq
        rcases List.mem_cons.mp hq with rfl | hq'
        · exact ⟨pv, List.mem_cons_self _ _, hpv⟩
        · obtain ⟨qv, hqvm, hqvp⟩ := hconv q hq' hsq
          exact ⟨qv, List.mem_cons_of_mem _ hqvm, hqvp⟩
      · constructor
        · intro hnil
          cases hnil
        · intro hall
          exact absurd (hpv ▸ hsob) (hall p (List.mem_cons_self _ _))

theorem foldl_min_peso :
    ∀ (resto : List PerfilViavel) (acc : PerfilViavel),
      (resto.foldl (fun a x => if x.perfil.peso < a.perfil.peso then x else a) acc = acc ∨
        resto.foldl (fun a x => if x.perfil.peso < a.perfil.peso then x else a) acc ∈ resto) ∧
      (resto.foldl (fun a x => if x.perfil.peso < a.perfil.peso then x else a)
        acc).perfil.peso ≤ acc.perfil.peso ∧
      ∀ x ∈ resto, (resto.foldl (fun a x => if x.perfil.peso < a.perfil.peso then x else a)
        acc).perfil.peso ≤ x.perfil.peso := by
  intro resto
  induction resto with
  | nil => exact fun acc => ⟨Or.inl rfl, le_refl _, by simp⟩
  | cons y ys ih =>
    intro acc
    rw [List.foldl_cons]
    by_cases hy : y.perfil.peso < acc.perfil.peso
    · rw [if_pos hy]
      obtain ⟨ihm, ihle, ihall⟩ := ih y
      refine ⟨?_, le_trans ihle hy.le, fun x hx => ?_⟩
      · rcases ihm with h | h
        · exact Or.inr (by rw [h]; exact List.mem_cons_self _ _)
        · exact Or.inr (List.mem_cons_of_mem _ h)
      · rcases List.mem_cons.mp hx with rfl | hx'
        · exact ihle
        · exact ihall x hx'
    · rw [if_neg hy]
      obtain ⟨ihm, ihle, ihall⟩ := ih acc
      refine ⟨?_, ihle, fun x hx => ?_⟩
      · rcases ihm with h | h
        · exact Or.inl h
        · exact Or.inr (List.mem_cons_of_mem _ h)
      · rcases List.mem_cons.mp hx with rfl | hx'
        · exact le_trans ihle (not_lt.mp hy)
        · exact ihall x hx'

theorem melhorPerfil_none (l : List PerfilViavel) : melhorPerfil l = none ↔ l = [] := by
  cases l <;> simp [melhorPerfil]

theorem melhorPerfil_spec (l : List PerfilViavel) (pv : PerfilViavel)
    (h : melhorPerfil l = some pv) :
    pv ∈ l ∧ ∀ qv ∈ l, pv.perfil.peso ≤ qv.perfil.peso := by
  cases l with
  | nil => cases h
  | cons x xs =>
    unfold melhorPerfil at h
    simp only [Option.some.injEq] at h
    obtain ⟨hm, hle, hall⟩ := foldl_min_peso xs x
    rw [h] at hm hle hall
    constructor
    · rcases hm with h' | h'
      · exact h' ▸ List.mem_cons_self _ _
      · exact List.mem_cons_of_mem _ h'
    · intro qv hqv
      rcases List.mem_cons.mp hqv with rfl | hqv'
      · exact hle
      · exact hall qv hqv'

/-- Campos de uma hipótese crítica usados pela escolha final de perfil
(linhas 567-604): nome do perfil (a string `"NENHUM"` marca a hipótese sem
sobrevivente), área bruta, solicitação, força e capacidades para a
`area_trabalho`. -/
structure HipoteseResultado where
  nome : String
  perfil_escolhido : String
  area_bruta : ℚ
  solicitacao : Solicitacao
  forca_axial : ℚ
  fa_reduzido : Option ℚ
  ft_admissivel : Option ℚ
  deriving DecidableEq, Repr

/-- `area_trabalho` (linhas 579-585): taxa |N|/capacidade da hipótese, com o
padrão `1e-6` do `dict.get`. -/
def areaTrabalho (d : HipoteseResultado) : ℚ :=
  match d.solicitacao with
  | .compressao => |d.forca_axial| / (d.fa_reduzido.getD (1 / 1000000))
  | .tracao => |d.forca_axial| / (d.ft_admissivel.getD (1 / 1000000))

/-- `max(lista, key=chave)` do Python: devolve o primeiro máximo. -/
def maxPorChave (chave : HipoteseResultado → ℚ) (h : HipoteseResultado)
    (resto : List HipoteseResultado) : HipoteseResultado :=
  resto.foldl (fun acc x => if chave x > chave acc then x else acc) h

/-- Escolha da hipótese crítica (linhas 567-604): com uma única hipótese,
adota-a; com duas e o mesmo perfil, a de maior `area_trabalho` entre as
viáveis (nenhuma viável → `continue`, barra descartada, linhas 588-594); com
perfis distintos, a de maior área bruta (linhas 597-601). -/
def escolherHipotese : List HipoteseResultado → Option HipoteseResultado
  | [] => none
  | [h] => some h
  | h0 :: h1 :: resto =>
    if h0.perfil_escolhido = h1.perfil_escolhido then
      match (h0 :: h1 :: resto).filter (fun d => d.perfil_escolhido ≠ "NENHUM") with
      | [] => none
      | viavel :: viaveis => some (maxPorChave areaTrabalho viavel viaveis)
    else
      some (maxPorChave (fun d => d.area_bruta) h0 (h1 :: resto))

theorem escolherHipotese_par (h0 h1 : HipoteseResultado) :
    escolherHipotese [h0, h1] =
      if h0.perfil_escolhido = h1.perfil_escolhido then
        match List.filter (fun d => d.perfil_escolhido ≠ "NENHUM") [h0, h1] with
        | [] => none
        | viavel :: viaveis => some (maxPorChave areaTrabalho viavel viaveis)
      else some (maxPorChave (fun d => d.area_bruta) h0 [h1]) := rfl

/-- **C5.** Para cada hipótese crítica de cada barra, a varredura rejeita
perfis com `w/t > 25`, reprovados na verificação axial, reprovados na flexão
e — apenas para diagonais/horizontais — com força admissível de cisalhamento
ou esmagamento nula, utilização de ligação > 1.0 ou taxa de trabalho axial
> 0.90; entre os sobreviventes escolhe o de menor peso por metro, marcando a
hipótese "NENHUM" quando não há sobrevivente; e na escolha final entre as duas
hipóteses críticas, com o mesmo perfil vence a hipótese de taxa de trabalho
estritamente maior, e com perfis distintos vence a de maior área bruta. -/
theorem claim_C5 (v : ParamsVarredura) (perfis : List Perfil) (hv : v.BemFormado)
    (hperfis : ∀ p ∈ perfis, PerfilBemFormado p) :
    (∃ vs, varrerPerfis v perfis = .ok vs ∧
      (∀ pv ∈ vs, pv.perfil ∈ perfis ∧ Sobrevive v pv.perfil) ∧
      (∀ p ∈ perfis, Sobrevive v p → ∃ pv ∈ vs, pv.perfil = p) ∧
      (melhorPerfil vs = none ↔ ∀ p ∈ perfis, ¬Sobrevive v p) ∧
      (∀ pv, melhorPerfil vs = some pv →
        pv ∈ vs ∧ Sobrevive v pv.perfil ∧ ∀ qv ∈ vs, pv.perfil.peso ≤ qv.perfil.peso)) ∧
    (∀ h0 h1 : HipoteseResultado,
      (h0.perfil_escolhido = h1.perfil_escolhido →
        h0.perfil_escolhido ≠ "NENHUM" → h1.perfil_escolhido ≠ "NENHUM" →
        (areaTrabalho h1 > areaTrabalho h0 → escolherHipotese [h0, h1] = some h1) ∧
        (areaTrabalho h0 > areaTrabalho h1 → escolherHipotese [h0, h1] = some h0)) ∧
      (h0.perfil_escolhido ≠ h1.perfil_escolhido →
        (h1.area_bruta > h0.area_bruta → escolherHipotese [h0, h1] = some h1) ∧
        (h0.area_bruta > h1.area_bruta → escolherHipotese [h0, h1] = some h0))) := by
  constructor
  · obtain ⟨vs, hvs, hmem, hconv, hvazio⟩ := varrerPerfis_spec v hv perfis hperfis
    refine ⟨vs, hvs, hmem, hconv, ?_, ?_⟩
    · rw [melhorPerfil_none]
      exact hvazio
    · intro pv hpv
      obtain ⟨hin, hmin⟩ := melhorPerfil_spec vs pv hpv
      exact ⟨hin, (hmem pv hin).2, hmin⟩
  · intro h0 h1
    constructor
    · intro heq hne0 hne1
      have hfiltro : List.filter (fun d => d.perfil_escolhido ≠ "NENHUM")
          ([h0, h1] : List HipoteseResultado) = [h0, h1] := by
        simp [List.filter, hne0, hne1]
      constructor
      · intro hgt
        rw [escolherHipotese_par, if_pos heq, hfiltro]
        show some (maxPorChave areaTrabalho h0 [h1]) = some h1
        simp only [maxPorChave, List.foldl_cons, List.foldl_nil]
        rw [if_pos hgt]
      · intro hgt
        rw [escolherHipotese_par, if_pos heq, hfiltro]
        show some (maxPorChave areaTrabalho h0 [h1]) = some h0
        simp only [maxPorChave, List.foldl_cons, List.foldl_nil]
        rw [if_neg (not_lt.mpr hgt.le)]
    · intro hne
      constructor
      · intro hgt
        rw [escolherHipotese_par, if_neg hne]
        simp only [maxPorChave, List.foldl_cons, List.foldl_nil]
        rw [if_pos hgt]
      · intro hgt
        rw [escolherHipotese_par, if_neg hne]
        simp only [maxPorChave, List.foldl_cons, List.foldl_nil]
        rw [if_neg (not_lt.mpr hgt.le)]

def vExemplo : ParamsVarredura :=
  { sq := fun x : ℚ => x, piQ := 3, forca_axial := 100, tipo_barra := .diagonal,
    comprimento := 100, angulo := 0, coef_minoracao := 9 / 10,
    diametros_furos := fun _ => none, descontos_area_liquida := none,
    limitar_esbeltez_tracao := false, forcar_verificacao_compressao := false,
    fv_parafuso := 1, limite_parafusos := fun _ => 4,
    planos_cisalhamento := fun _ => 1, fatores_esmagamento := [5 / 4] }

theorem vExemplo_bemFormado : vExemplo.BemFormado := by
  refine ⟨sqPos_id, by norm_num [vExemplo], by norm_num [vExemplo],
    by norm_num [vExemplo], by norm_num [vExemplo, ParamsVarredura.dFuro],
    fun t => by norm_num [vExemplo], ?_⟩
  intro f hf
  rw [List.mem_singleton.mp hf]
  norm_num

theorem claim_C5_witness :
    ∃ vs, varrerPerfis vExemplo [perfilExemplo] = .ok vs ∧
      (∀ pv ∈ vs, pv.perfil ∈ [perfilExemplo] ∧ Sobrevive vExemplo pv.perfil) ∧
      (∀ p ∈ [perfilExemplo], Sobrevive vExemplo p → ∃ pv ∈ vs, pv.perfil = p) ∧
      (melhorPerfil vs = none ↔ ∀ p ∈ [perfilExemplo], ¬Sobrevive vExemplo p) ∧
      (∀ pv, melhorPerfil vs = some pv →
        pv ∈ vs ∧ Sobrevive vExemplo pv.perfil ∧
          ∀ qv ∈ vs, pv.perfil.peso ≤ qv.perfil.peso) :=
  (claim_C5 vExemplo [perfilExemplo] vExemplo_bemFormado
    (fun p hp => by rw [List.mem_singleton.mp hp]; exact perfilExemplo_bemFormado)).1

/-- Valor gravado em `ligacoes_forcadas` por
`otimizar_ligacoes_montantes_extremidades` (`ligacoes.py`): o registro completo
da melhor ligação (linhas 440-441) ou o marcador inviável de duas chaves
`\x7b'ligacao_viavel': False, 'np': None\x7d` (linhas 389-390). -/
inductive LigAtribuida where
  | completa (lig : Ligacao)
  | inviavel
  deriving DecidableEq, Repr

/-- Dados de um candidato no laço de verificação e reforço (linhas 394-397):
força axial crítica (`max(esforcos, key=abs)`), tipo da barra e espessura
`metadados[id_barra].get("t", 0.0)`. -/
structure CandEscala where
  forca_axial_critica : ℚ
  tipo : TipoBarra
  espessura_aba : ℚ

/-- Parâmetros fixos das reconvocações de `dimensionar_ligacao` no laço de
reforço de um grupo (linhas 424-437). `fuLeak` e `npMinLeak` modelam
`obter_fu(linha, df_materiais)` e o "Np mín" de `perfil_nome`, variáveis que
vazam da última iteração do laço de candidatos (linhas 343-374). -/
structure ParamsGrupo where
  piQ : ℚ
  diametros_furos : TipoBase → Option ℚ
  fv_parafuso : ℚ
  limite_parafusos : TipoBase → ℕ
  planos_cisalhamento : TipoBase → ℕ
  fatores_esmagamento : List ℚ
  coef_minoracao : ℚ
  fuLeak : ℚ
  npMinLeak : Option ℕ

/-- Parâmetros da chamada a `dimensionar_ligacao` das linhas 424-437 para o
candidato `c`. -/
def ParamsGrupo.paramsLigDe (g : ParamsGrupo) (c : CandEscala) : ParamsLig :=
  { piQ := g.piQ, forca_axial := c.forca_axial_critica, tipo_barra := c.tipo,
    npMinPerfil := g.npMinLeak, espessura_aba := c.espessura_aba,
    diametros_furos := g.diametros_furos, fv_parafuso := g.fv_parafuso,
    fu_peca := g.fuLeak, limite_parafusos := g.limite_parafusos,
    planos_cisalhamento := g.planos_cisalhamento,
    fatores_esmagamento := g.fatores_esmagamento, coef_minoracao := g.coef_minoracao }

/-- O `while True` de reforço (linhas 399-437), com combustível: para quando a
ligação atende ao candidato, quando `np` é `None` ou quando `novo_np` excede o
limite da classe; senão redimensiona a ligação (com os mesmos parâmetros,
linhas 424-437) e repete. -/
def escalarLigacao (g : ParamsGrupo) (c : CandEscala) :
    ℕ → Ligacao → Except String Ligacao
  | 0, lig => .ok lig
  | fuel + 1, lig =>
    if |c.forca_axial_critica| ≤ lig.forca_adm_cisalhamento ∧
        |c.forca_axial_critica| ≤ lig.forca_adm_esmagamento then .ok lig
    else
      match lig.np with
      | none => .ok lig
      | some np =>
        if g.limite_parafusos c.tipo.base <
            np + (if c.tipo.ehMontante then 2 else 1) then .ok lig
        else do
          let nova ← dimensionar_ligacao (g.paramsLigDe c)
          escalarLigacao g c fuel nova

/-- Laço `for id_barra in candidatos` das linhas 394-437: a variável
`melhor_ligacao` é reaproveitada de um candidato para o seguinte. -/
def reforcarCandidatos (g : ParamsGrupo) (fuel : ℕ) :
    List CandEscala → Ligacao → Except String Ligacao
  | [], lig => .ok lig
  | c :: resto, lig => do
    let lig2 ← escalarLigacao g c fuel lig
    reforcarCandidatos g fuel resto lig2

/-- `criterio_resistencia` (linhas 380-381): comparação lexicográfica estrita
das tuplas `(Fc, Fe)` usada pelo `max` do Python. -/
def criterioGt (a b : Ligacao) : Prop :=
  b.forca_adm_cisalhamento < a.forca_adm_cisalhamento ∨
    (a.forca_adm_cisalhamento = b.forca_adm_cisalhamento ∧
      b.forca_adm_esmagamento < a.forca_adm_esmagamento)

instance (a b : Ligacao) : Decidable (criterioGt a b) := by
  unfold criterioGt
  infer_instance

/-- `max(ligacoes_candidatas.values(), key=criterio_resistencia)` (linha 383):
primeiro máximo na ordem de inserção. -/
def melhorLigacao (lig0 : Ligacao) (resto : List Ligacao) : Ligacao :=
  resto.foldl (fun acc x => if criterioGt x acc then x else acc) lig0

/-- `for id_barra in ids_barra: ligacoes_forcadas[id_barra] = valor`
(linhas 389-390 e 440-441), sobre o dicionário como função. -/
def atribuirTodas (valor : LigAtribuida) (ids : List String)
    (m : String → Option LigAtribuida) : String → Option LigAtribuida :=
  ids.foldl (fun m2 id => fun k => if k = id then some valor else m2 k) m

/-- Um grupo de extremidade `(modulo, posicao, nivel_y)` no ponto da linha 376:
parâmetros vazados, ligações candidatas já dimensionadas (valores de
`ligacoes_candidatas`, na ordem de inserção), dados dos candidatos para o laço
de reforço e ids das barras do grupo. -/
structure Grupo where
  params : ParamsGrupo
  candidatas : List Ligacao
  cands : List CandEscala
  ids : List String

/-- Corpo do laço de grupos a partir da linha 376: sem candidatas, `continue`
(linhas 376-377); melhor ligação com `np = None`, marca todo o grupo com o
registro inviável e `continue` (linhas 388-391); senão reforça por candidato e
atribui a ligação final a todos os montantes do grupo (linhas 393-441). -/
def processarGrupo (fuel : ℕ) (gr : Grupo) (m : String → Option LigAtribuida) :
    Except String (String → Option LigAtribuida) :=
  match gr.candidatas with
  | [] => .ok m
  | l0 :: resto =>
    if (melhorLigacao l0 resto).np = none then
      .ok (atribuirTodas .inviavel gr.ids m)
    else do
      let final ← reforcarCandidatos gr.params fuel gr.cands (melhorLigacao l0 resto)
      .ok (atribuirTodas (.completa final) gr.ids m)

/-- Laço das linhas 314-441 sobre os grupos de extremidade, partindo de
`ligacoes_forcadas = \x7b\x7d`. -/
def processarGrupos (fuel : ℕ) :
    List Grupo → (String → Option LigAtribuida) →
      Except String (String → Option LigAtribuida)
  | [], m => .ok m
  | gr :: resto, m => do
    let m2 ← processarGrupo fuel gr m
    processarGrupos fuel resto m2

theorem bind_eq_ok {α β : Type} {e : Except String α} {f : α → Except String β} {b : β}
    (h : e >>= f = .ok b) : ∃ a, e = .ok a ∧ f a = .ok b := by
  cases e with
  | error s =>
    rw [bindError] at h
    cases h
  | ok a =>
    rw [bindOk] at h
    exact ⟨a, rfl, h⟩

theorem atribuirTodas_not_mem (valor : LigAtribuida) :
    ∀ (ids : List String) (m : String → Option LigAtribuida) (k : String),
      k ∉ ids → atribuirTodas valor ids m k = m k := by
  intro ids
  induction ids with
  | nil => exact fun _ _ _ => rfl
  | cons i resto ih =>
    intro m k hk
    have hki : k ≠ i := fun h => hk (h ▸ List.mem_cons_self _ _)
    have hkr : k ∉ resto := fun h => hk (List.mem_cons_of_mem _ h)
    show atribuirTodas valor resto (fun k2 => if k2 = i then some valor else m k2) k = m k
    rw [ih _ k hkr]
    show (if k = i then some valor else m k) = m k
    exact if_neg hki

theorem atribuirTodas_mem (valor : LigAtribuida) :
    ∀ (ids : List String) (m : String → Option LigAtribuida) (k : String),
      k ∈ ids → atribuirTodas valor ids m k = some valor := by
  intro ids
  induction ids with
  | nil => exact fun _ k hk => absurd hk (List.not_mem_nil k)
  | cons i resto ih =>
    intro m k hk
    by_cases hkr : k ∈ resto
    · exact ih _ k hkr
    · have hki : k = i := by
        rcases List.mem_cons.mp hk with h | h
        · exact h
        · exact absurd h hkr
      show atribuirTodas valor resto (fun k2 => if k2 = i then some valor else m k2) k = some valor
      rw [atribuirTodas_not_mem valor resto _ k hkr]
      show (if k = i then some valor else m k) = some valor
      exact if_pos hki

/-- Um passo de grupo que devolve `.ok` encaixa em um dos três ramos das
linhas 376-441: grupo sem candidatas intacto (`continue`), inviável marcado em
todos os ids, ou ligação final atribuída a todos os ids. -/
theorem processarGrupo_eq_ok (fuel : ℕ) (gr : Grupo)
    (m m1 : String → Option LigAtribuida) (h : processarGrupo fuel gr m = .ok m1) :
    (gr.candidatas = [] ∧ m1 = m) ∨
    (m1 = atribuirTodas .inviavel gr.ids m ∧
      ∃ l0 rs, gr.candidatas = l0 :: rs ∧ (melhorLigacao l0 rs).np = none) ∨
    ((∃ final, m1 = atribuirTodas (.completa final) gr.ids m) ∧
      ∃ l0 rs, gr.candidatas = l0 :: rs ∧ (melhorLigacao l0 rs).np ≠ none) := by
  unfold processarGrupo at h
  cases hc : gr.candidatas with
  | nil =>
    rw [hc] at h
    have h' : (Except.ok m : Except String (String → Option LigAtribuida)) = .ok m1 := h
    injection h' with h2
    exact Or.inl ⟨rfl, h2.symm⟩
  | cons l0 rs =>
    rw [hc] at h
    have h' : (if (melhorLigacao l0 rs).np = none then
        (Except.ok (atribuirTodas LigAtribuida.inviavel gr.ids m) :
          Except String (String → Option LigAtribuida))
      else reforcarCandidatos gr.params fuel gr.cands (melhorLigacao l0 rs) >>=
        fun f2 => Except.ok (atribuirTodas (LigAtribuida.completa f2) gr.ids m)) =
        Except.ok m1 := h
    by_cases hnone : (melhorLigacao l0 rs).np = none
    · rw [if_pos hnone] at h'
      injection h' with h2
      exact Or.inr (Or.inl ⟨h2.symm, l0, rs, rfl, hnone⟩)
    · rw [if_neg hnone] at h'
      obtain ⟨final, _, hok⟩ := bind_eq_ok h'
      injection hok with h2
      exact Or.inr (Or.inr ⟨⟨final, h2.symm⟩, l0, rs, rfl, hnone⟩)

theorem processarGrupos_congela (fuel : ℕ) :
    ∀ (grupos : List Grupo) (m m2 : String → Option LigAtribuida) (k : String),
      processarGrupos fuel grupos m = .ok m2 →
      (∀ gr ∈ grupos, k ∉ gr.ids) → m2 k = m k := by
  intro grupos
  induction grupos with
  | nil =>
    intro m m2 k h _
    have h' : (Except.ok m : Except String (String → Option LigAtribuida)) = .ok m2 := h
    injection h' with h2
    rw [← h2]
  | cons gr resto ih =>
    intro m m2 k h hk
    have h' : (processarGrupo fuel gr m >>= processarGrupos fuel resto) = .ok m2 := h
    obtain ⟨m1, hm1, hrest⟩ := bind_eq_ok h'
    rw [ih m1 m2 k hrest (fun g hg => hk g (List.mem_cons_of_mem _ hg))]
    have hnk : k ∉ gr.ids := hk gr (List.mem_cons_self _ _)
    unfold processarGrupo at hm1
    cases hc : gr.candidatas with
    | nil =>
      rw [hc] at hm1
      have hm1' : (Except.ok m : Except String (String → Option LigAtribuida)) = .ok m1 := hm1
      injection hm1' with h2
      rw [← h2]
    | cons l0 rs =>
      rw [hc] at hm1
      have hm1' : (if (melhorLigacao l0 rs).np = none then
          (Except.ok (atribuirTodas LigAtribuida.inviavel gr.ids m) :
            Except String (String → Option LigAtribuida))
        else reforcarCandidatos gr.params fuel gr.cands (melhorLigacao l0 rs) >>=
          fun final => Except.ok (atribuirTodas (LigAtribuida.completa final) gr.ids m)) =
          Except.ok m1 := hm1
      by_cases hnone : (melhorLigacao l0 rs).np = none
      · rw [if_pos hnone] at hm1'
        injection hm1' with h2
        rw [← h2]
        exact atribuirTodas_not_mem _ _ _ _ hnk
      · rw [if_neg hnone] at hm1'
        obtain ⟨final, _, hok⟩ := bind_eq_ok hm1'
        injection hok with h2
        rw [← h2]
        exact atribuirTodas_not_mem _ _ _ _ hnk

/-- Propriedades de qualquer execução do laço de grupos que termina em `.ok`,
com grupos de ids disjuntos: cada grupo ou fica com o acumulador inicial ou
tem todos os seus ids apontando para um único registro; e um grupo cuja melhor
candidata é inviável tem todos os ids marcados com o registro inviável. -/
theorem processarGrupos_ok_spec (fuel : ℕ) :
    ∀ (grupos : List Grupo) (m0 m : String → Option LigAtribuida),
      processarGrupos fuel grupos m0 = .ok m →
      List.Pairwise (fun a b => ∀ id : String, id ∈ a.ids → id ∉ b.ids) grupos →
      (∀ gr ∈ grupos,
        (∀ id ∈ gr.ids, m id = m0 id) ∨ ∃ r, ∀ id ∈ gr.ids, m id = some r) ∧
      (∀ gr ∈ grupos, ∀ l0 rs, gr.candidatas = l0 :: rs →
        (melhorLigacao l0 rs).np = none →
        ∀ id ∈ gr.ids, m id = some LigAtribuida.inviavel) := by
  intro grupos
  induction grupos with
  | nil => exact fun m0 m _ _ => ⟨by simp, by simp⟩
  | cons gr resto ih =>
    intro m0 m hok hdisj
    obtain ⟨hhead, htail⟩ := List.pairwise_cons.mp hdisj
    have hok' : (processarGrupo fuel gr m0 >>= processarGrupos fuel resto) = .ok m := hok
    obtain ⟨m1, hm1, hrest⟩ := bind_eq_ok hok'
    obtain ⟨ha, hb⟩ := ih m1 m hrest htail
    have hfroz : ∀ id ∈ gr.ids, m id = m1 id := fun id hid =>
      processarGrupos_congela fuel resto m1 m id hrest (fun b hb2 => hhead b hb2 id hid)
    have hcs := processarGrupo_eq_ok fuel gr m0 m1 hm1
    refine ⟨?_, ?_⟩
    · intro g hg
      rcases List.mem_cons.mp hg with rfl | hg'
      · rcases hcs with ⟨_, rfl⟩ | ⟨rfl, _⟩ | ⟨⟨final, rfl⟩, _⟩
        · exact Or.inl hfroz
        · refine Or.inr ⟨.inviavel, fun id hid => ?_⟩
          rw [hfroz id hid]
          exact atribuirTodas_mem _ _ _ _ hid
        · refine Or.inr ⟨.completa final, fun id hid => ?_⟩
          rw [hfroz id hid]
          exact atribuirTodas_mem _ _ _ _ hid
      · rcases ha g hg' with hsame | ⟨r, hr⟩
        · refine Or.inl fun id hid => ?_
          have hnot : id ∉ gr.ids := fun hin => hhead g hg' id hin hid
          rw [hsame id hid]
          rcases hcs with ⟨_, rfl⟩ | ⟨rfl, _⟩ | ⟨⟨final, rfl⟩, _⟩
          · rfl
          · exact atribuirTodas_not_mem _ _ _ _ hnot
          · exact atribuirTodas_not_mem _ _ _ _ hnot
        · exact Or.inr ⟨r, hr⟩
    · intro g hg l0 rs hcand hnone
      rcases List.mem_cons.mp hg with rfl | hg'
      · intro id hid
        rcases hcs with ⟨hnil, _⟩ | ⟨rfl, _⟩ | ⟨_, l0', rs', hcand', hne⟩
        · rw [hcand] at hnil
          cases hnil
        · rw [hfroz id hid]
          exact atribuirTodas_mem _ _ _ _ hid
        · rw [hcand] at hcand'
          injection hcand' with e1 e2
          rw [← e1, ← e2] at hne
          exact absurd hnone hne
      · exact hb g hg' l0 rs hcand hnone

/-- Uma execução em que cada grupo é pulado (sem candidatas) ou tem melhor
candidata inviável nunca entra no laço de reforço das linhas 399-437 e sempre
termina em `.ok`: o `continue` da linha 391 segue ao grupo seguinte. -/
theorem processarGrupos_sem_reforco_ok (fuel : ℕ) :
    ∀ (grupos : List Grupo) (m0 : String → Option LigAtribuida),
      (∀ gr ∈ grupos, gr.candidatas = [] ∨
        ∃ l0 rs, gr.candidatas = l0 :: rs ∧ (melhorLigacao l0 rs).np = none) →
      ∃ m, processarGrupos fuel grupos m0 = .ok m := by
  intro grupos
  induction grupos with
  | nil => exact fun m0 _ => ⟨m0, rfl⟩
  | cons gr resto ih =>
    intro m0 hall
    have hstep : ∃ m1, processarGrupo fuel gr m0 = .ok m1 := by
      rcases hall gr (List.mem_cons_self _ _) with hnil | ⟨l0, rs, hcons, hnone⟩
      · refine ⟨m0, ?_⟩
        unfold processarGrupo
        rw [hnil]
      · refine ⟨atribuirTodas .inviavel gr.ids m0, ?_⟩
        unfold processarGrupo
        rw [hcons]
        show (if (melhorLigacao l0 rs).np = none then
            (Except.ok (atribuirTodas LigAtribuida.inviavel gr.ids m0) :
              Except String (String → Option LigAtribuida))
          else reforcarCandidatos gr.params fuel gr.cands (melhorLigacao l0 rs) >>=
            fun f2 => Except.ok (atribuirTodas (LigAtribuida.completa f2) gr.ids m0)) =
          Except.ok (atribuirTodas LigAtribuida.inviavel gr.ids m0)
        rw [if_pos hnone]
    obtain ⟨m1, hm1⟩ := hstep
    obtain ⟨m, hm⟩ := ih m1 (fun g hg => hall g (List.mem_cons_of_mem _ hg))
    refine ⟨m, ?_⟩
    show (processarGrupo fuel gr m0 >>= processarGrupos fuel resto) = .ok m
    rw [hm1, bindOk, hm]

/-- **C6 (emendada).** Para o otimizador de ligações de extremidade de módulo
(laço a partir da linha 376 de `ligacoes.py`, grupos com ids disjuntos):
sempre que o laço termina sem exceção, todo montante de cada grupo recebe no
dicionário devolvido exatamente o mesmo registro de ligação (campo a campo) —
ou nenhum, quando o grupo é pulado por falta de candidatas —, e um grupo cuja
melhor candidata é inviável (`np = None`) tem todos os montantes marcados com
o registro inviável; e toda execução em que cada grupo é pulado ou inviável
termina em `.ok` (o `continue` da linha 391 segue ao grupo seguinte sem
abortar). A terminação incondicional da afirmação original é falsa: o laço de
reforço redimensiona a ligação com `espessura_aba =
metadados[id_barra].get("t", 0.0)` (linha 397), nenhum metadado do repositório
possui a chave `"t"`, e com espessura `0.0` a rechamada de
`dimensionar_ligacao` divide a força pelo contato nulo e levanta
`ZeroDivisionError`, abortando a execução inteira (ver o contraexemplo). -/
theorem claim_C6 (fuel : ℕ) (grupos : List Grupo)
    (hdisj : List.Pairwise (fun a b => ∀ id : String, id ∈ a.ids → id ∉ b.ids) grupos) :
    (∀ m, processarGrupos fuel grupos (fun _ => none) = .ok m →
      (∀ gr ∈ grupos, (∀ id ∈ gr.ids, m id = none) ∨
        ∃ r : LigAtribuida, ∀ id ∈ gr.ids, m id = some r) ∧
      (∀ gr ∈ grupos, ∀ l0 rs, gr.candidatas = l0 :: rs →
        (melhorLigacao l0 rs).np = none →
        ∀ id ∈ gr.ids, m id = some LigAtribuida.inviavel)) ∧
    ((∀ gr ∈ grupos, gr.candidatas = [] ∨
        ∃ l0 rs, gr.candidatas = l0 :: rs ∧ (melhorLigacao l0 rs).np = none) →
      ∃ m, processarGrupos fuel grupos (fun _ => none) = .ok m) := by
  constructor
  · intro m hm
    obtain ⟨ha, hb⟩ := processarGrupos_ok_spec fuel grupos (fun _ => none) m hm hdisj
    exact ⟨fun gr hg => (ha gr hg).imp (fun h id hid => h id hid) id, hb⟩
  · exact processarGrupos_sem_reforco_ok fuel grupos (fun _ => none)

def ligInviavelExemplo : Ligacao :=
  { ligacao_viavel := false, np := none, forca_adm_cisalhamento := 0,
    forca_adm_esmagamento := 0, tx_lig := 999, d_furo := 159 / 100,
    area_parafuso := 0, fator_fp := none, planos := 1, coef_minoracao := 9 / 10 }

def paramsGrupoExemplo : ParamsGrupo :=
  { piQ := 3, diametros_furos := fun _ => none, fv_parafuso := 1,
    limite_parafusos := fun _ => 4, planos_cisalhamento := fun _ => 1,
    fatores_esmagamento := [5 / 4], coef_minoracao := 9 / 10, fuLeak := 1,
    npMinLeak := none }

/-- Candidato com a espessura que o código realmente passa no laço de reforço:
`metadados[id_barra].get("t", 0.0) = 0.0`, pois nenhum metadado tem a chave
`"t"`. -/
def candEspessuraZero : CandEscala :=
  { forca_axial_critica := -100, tipo := TipoBarra.montante, espessura_aba := 0 }

def grupoExemplo : Grupo :=
  { params := paramsGrupoExemplo, candidatas := [ligInviavelExemplo],
    cands := [candEspessuraZero], ids := ["M1", "M2"] }

theorem claim_C6_witness :
    ∃ m, processarGrupos 1 [grupoExemplo] (fun _ => none) = .ok m ∧
      ∀ id ∈ grupoExemplo.ids, m id = some LigAtribuida.inviavel := by
  have hpair : List.Pairwise (fun a b : Grupo => ∀ id : String, id ∈ a.ids → id ∉ b.ids)
      [grupoExemplo] :=
    List.Pairwise.cons (fun b hb => absurd hb (List.not_mem_nil b)) List.Pairwise.nil
  have hskip : ∀ gr ∈ [grupoExemplo], gr.candidatas = [] ∨
      ∃ l0 rs, gr.candidatas = l0 :: rs ∧ (melhorLigacao l0 rs).np = none := by
    intro gr hgr
    rw [List.mem_singleton.mp hgr]
    exact Or.inr ⟨ligInviavelExemplo, [], rfl, rfl⟩
  obtain ⟨m, hm⟩ := (claim_C6 1 [grupoExemplo] hpair).2 hskip
  refine ⟨m, hm, ?_⟩
  exact ((claim_C6 1 [grupoExemplo] hpair).1 m hm).2 grupoExemplo
    (List.mem_cons_self _ _) ligInviavelExemplo [] rfl rfl

/-- Ligação viável de referência do contraexemplo: um registro devolvido como
melhor candidata cuja capacidade é menor que a força crítica de outro
candidato do grupo, forçando o laço de reforço das linhas 399-437. -/
def ligGovernanteExemplo : Ligacao :=
  { ligacao_viavel := true, np := some 4, forca_adm_cisalhamento := 50,
    forca_adm_esmagamento := 50, tx_lig := 1 / 2, d_furo := 2,
    area_parafuso := 3, fator_fp := some (5 / 4), planos := 1,
    coef_minoracao := 9 / 10 }

def paramsReforcoExemplo : ParamsGrupo :=
  { piQ := 3, diametros_furos := fun _ => some 2, fv_parafuso := 100,
    limite_parafusos := fun _ => 24, planos_cisalhamento := fun _ => 1,
    fatores_esmagamento := [5 / 4], coef_minoracao := 9 / 10, fuLeak := 1,
    npMinLeak := none }

def candReforcoExemplo : CandEscala :=
  { forca_axial_critica := 100, tipo := TipoBarra.montante, espessura_aba := 0 }

def grupoEspessuraZero : Grupo :=
  { params := paramsReforcoExemplo, candidatas := [ligGovernanteExemplo],
    cands := [candReforcoExemplo], ids := ["M1", "M2"] }

/-- Com espessura de aba nula a verificação de esmagamento divide pela área de
contato `np * d_furo * 0 = 0` no primeiro fator da lista (linhas 93-96 de
`ligacoes.py`). -/
theorem percorrerFatores_espessura_zero (p : ParamsLig) (hesp : p.espessura_aba = 0)
    (np : ℕ) (fAdmCis f : ℚ) (resto : List ℚ) :
    percorrerFatores p np fAdmCis (f :: resto) = .error "ZeroDivisionError" := by
  have hzero : p.areaContato np = 0 := by
    unfold ParamsLig.areaContato
    rw [hesp, mul_zero]
  unfold percorrerFatores
  simp only [hzero]
  rw [show divE |p.forca_axial| 0 = (Except.error "ZeroDivisionError" : Except String ℚ)
    from if_pos rfl]
  rw [bindError]

/-- Com espessura nula, o primeiro número de parafusos da varredura que não é
pulado e passa no cisalhamento leva ao `ZeroDivisionError` do esmagamento. -/
theorem percorrerNps_espessura_zero (p : ParamsLig) (hesp : p.espessura_aba = 0)
    (np : ℕ) (resto : List ℕ)
    (hskip : ¬(p.tipoBase = TipoBase.montante ∧ np % 2 ≠ 0))
    (hshear : ¬(|p.forca_axial| > p.fAdmCis np))
    (f : ℚ) (fresto : List ℚ) (hfat : p.fatores_esmagamento = f :: fresto) :
    percorrerNps p (np :: resto) = .error "ZeroDivisionError" := by
  unfold percorrerNps
  rw [if_neg hskip]
  simp only [hfat]
  rw [if_neg hshear]
  rw [percorrerFatores_espessura_zero p hesp np (p.fAdmCis np) f fresto, bindError]

/-- `dimensionar_ligacao` com espessura de aba `0.0` levanta
`ZeroDivisionError` assim que o primeiro número de parafusos da varredura passa
no cisalhamento. -/
theorem dimensionar_ligacao_espessura_zero (p : ParamsLig) (hesp : p.espessura_aba = 0)
    (np : ℕ) (resto : List ℕ)
    (hran : List.range' p.npMin (p.npMax + 1 - p.npMin) = np :: resto)
    (hskip : ¬(p.tipoBase = TipoBase.montante ∧ np % 2 ≠ 0))
    (hshear : ¬(|p.forca_axial| > p.fAdmCis np))
    (f : ℚ) (fresto : List ℚ) (hfat : p.fatores_esmagamento = f :: fresto) :
    dimensionar_ligacao p = .error "ZeroDivisionError" := by
  unfold dimensionar_ligacao
  rw [hran, percorrerNps_espessura_zero p hesp np resto hskip hshear f fresto hfat, bindError]

theorem escalarLigacao_espessura_zero :
    escalarLigacao paramsReforcoExemplo candReforcoExemplo 1 ligGovernanteExemplo =
      .error "ZeroDivisionError" := by
  have hdim : dimensionar_ligacao (paramsReforcoExemplo.paramsLigDe candReforcoExemplo) =
      .error "ZeroDivisionError" := by
    have hcis : (paramsReforcoExemplo.paramsLigDe candReforcoExemplo).fAdmCis 4 = 1080 := by
      norm_num [ParamsLig.fAdmCis, forcaAdmCisalhamento, ParamsLig.areaParafuso,
        ParamsLig.dFuro, ParamsLig.tipoBase, TipoBarra.base, ParamsLig.numPlanos,
        ParamsGrupo.paramsLigDe, paramsReforcoExemplo, candReforcoExemplo, Option.getD]
    refine dimensionar_ligacao_espessura_zero _ rfl 4 (List.range' 5 20) rfl
      (by decide) ?_ (5 / 4) [] rfl
    show ¬(|(100 : ℚ)| > (paramsReforcoExemplo.paramsLigDe candReforcoExemplo).fAdmCis 4)
    rw [hcis, abs_of_pos (by norm_num : (0 : ℚ) < 100)]
    norm_num
  have hatende : ¬(|candReforcoExemplo.forca_axial_critica| ≤
        ligGovernanteExemplo.forca_adm_cisalhamento ∧
      |candReforcoExemplo.forca_axial_critica| ≤
        ligGovernanteExemplo.forca_adm_esmagamento) := by
    intro hc
    have hc1 := hc.1
    rw [show candReforcoExemplo.forca_axial_critica = (100 : ℚ) from rfl,
      show ligGovernanteExemplo.forca_adm_cisalhamento = (50 : ℚ) from rfl,
      abs_of_pos (by norm_num : (0 : ℚ) < 100)] at hc1
    norm_num at hc1
  show (if |candReforcoExemplo.forca_axial_critica| ≤
        ligGovernanteExemplo.forca_adm_cisalhamento ∧
      |candReforcoExemplo.forca_axial_critica| ≤
        ligGovernanteExemplo.forca_adm_esmagamento then
      (Except.ok ligGovernanteExemplo : Except String Ligacao)
    else
      match ligGovernanteExemplo.np with
      | none => Except.ok ligGovernanteExemplo
      | some np =>
        if paramsReforcoExemplo.limite_parafusos candReforcoExemplo.tipo.base <
            np + (if candReforcoExemplo.tipo.ehMontante then 2 else 1) then
          Except.ok ligGovernanteExemplo
        else dimensionar_ligacao (paramsReforcoExemplo.paramsLigDe candReforcoExemplo) >>=
          escalarLigacao paramsReforcoExemplo candReforcoExemplo 0) =
    Except.error "ZeroDivisionError"
  rw [if_neg hatende]
  show (if paramsReforcoExemplo.limite_parafusos candReforcoExemplo.tipo.base <
      4 + (if candReforcoExemplo.tipo.ehMontante then 2 else 1) then
      (Except.ok ligGovernanteExemplo : Except String Ligacao)
    else dimensionar_ligacao (paramsReforcoExemplo.paramsLigDe candReforcoExemplo) >>=
      escalarLigacao paramsReforcoExemplo candReforcoExemplo 0) =
    Except.error "ZeroDivisionError"
  rw [if_neg (by decide : ¬(paramsReforcoExemplo.limite_parafusos
      candReforcoExemplo.tipo.base <
    4 + (if candReforcoExemplo.tipo.ehMontante then 2 else 1)))]
  rw [hdim, bindError]

theorem processarGrupos_espessura_zero :
    processarGrupos 1 [grupoEspessuraZero] (fun _ => none) =
      .error "ZeroDivisionError" := by
  have href : reforcarCandidatos paramsReforcoExemplo 1 [candReforcoExemplo]
      ligGovernanteExemplo = .error "ZeroDivisionError" := by
    show (escalarLigacao paramsReforcoExemplo candReforcoExemplo 1 ligGovernanteExemplo >>=
      reforcarCandidatos paramsReforcoExemplo 1 ([] : List CandEscala)) =
      Except.error "ZeroDivisionError"
    rw [escalarLigacao_espessura_zero, bindError]
  have hgrupo : processarGrupo 1 grupoEspessuraZero (fun _ => none) =
      .error "ZeroDivisionError" := by
    show (if (melhorLigacao ligGovernanteExemplo []).np = none then
        (Except.ok (atribuirTodas LigAtribuida.inviavel grupoEspessuraZero.ids
          fun _ => none) : Except String (String → Option LigAtribuida))
      else reforcarCandidatos grupoEspessuraZero.params 1 grupoEspessuraZero.cands
          (melhorLigacao ligGovernanteExemplo []) >>=
        fun f2 => Except.ok (atribuirTodas (LigAtribuida.completa f2)
          grupoEspessuraZero.ids fun _ => none)) = Except.error "ZeroDivisionError"
    rw [if_neg (by decide : ¬((melhorLigacao ligGovernanteExemplo []).np = none))]
    show (reforcarCandidatos paramsReforcoExemplo 1 [candReforcoExemplo]
        ligGovernanteExemplo >>=
      fun f2 => Except.ok (atribuirTodas (LigAtribuida.completa f2)
        grupoEspessuraZero.ids fun _ => none)) = Except.error "ZeroDivisionError"
    rw [href, bindError]
  show (processarGrupo 1 grupoEspessuraZero (fun _ => none) >>=
    processarGrupos 1 ([] : List Grupo)) = Except.error "ZeroDivisionError"
  rw [hgrupo, bindError]

/-- Contraexemplo de **C6**: num grupo com candidata viável cuja capacidade não
cobre a força crítica do candidato, o laço de reforço rechama
`dimensionar_ligacao` com a espessura `metadados.get("t", 0.0) = 0.0`; o
primeiro número de parafusos que passa no cisalhamento divide `|F|` pela área
de contato `np * d_furo * 0 = 0` e a execução inteira aborta com
`ZeroDivisionError` — nenhum dicionário é devolvido, contrariando a atribuição
de um registro idêntico a todos os montantes do grupo e o seguimento ao grupo
seguinte prometidos pela afirmação original. -/
theorem claim_C6_contraexemplo :
    processarGrupos 1 [grupoEspessuraZero] (fun _ => none) =
      .error "ZeroDivisionError" :=
  processarGrupos_espessura_zero

/-- Uma hipótese de dimensionamento de um montante em `resultados[id_barra]`,
com os campos lidos e gravados por `igualar_perfis_montantes_por_modulo`
(`ferramentas_montantes.py`, linhas 181-218). -/
structure HipoteseMontante where
  tipo : TipoBarra
  forca_axial : ℚ
  comprimento_destravado : ℚ
  comprimento : ℚ
  verif : VerifAxial
  perfil_escolhido : String
  raio : ℚ
  area_bruta : ℚ
  esbeltez_corrigida : ℚ

/-- Entrada de `resultados` para um montante do módulo: o `perfil_escolhido`
da barra e suas hipóteses. -/
structure BarraMontante where
  perfil_escolhido : String
  hipoteses : List HipoteseMontante

/-- `perfis_areas` (linhas 164-169): pares `(area_bruta, nome)` dos perfis
usados pelos montantes do módulo e encontrados no catálogo `df_montantes`. -/
def perfisAreas (catalogo : String → Option Perfil) (nomes : List String) :
    List (ℚ × String) :=
  nomes.filterMap fun nome => (catalogo nome).map fun p => (p.a_cm2, nome)

/-- `max(perfis_areas, key=lambda x: x[0])` (linha 175): primeiro máximo. -/
def maxPorArea (pa : ℚ × String) (resto : List (ℚ × String)) : ℚ × String :=
  resto.foldl (fun acc x => if x.1 > acc.1 then x else acc) pa

/-- Recálculo de uma hipótese com o perfil final (linhas 187-218): reexecuta a
verificação axial com `limitar_esbeltez_tracao = (F > 0)` e
`forcar_verificacao_compressao = (F < 0)` e o diâmetro
`diametros_furos.get("montante", 1.59)`, recalcula a esbeltez corrigida de
montante com o `rx` do perfil final e grava os campos atualizados. -/
def recalcularHipotese (sq : ℚ → ℚ) (piQ coef : ℚ) (dFuroMont : Option ℚ)
    (descontos : Option (TipoBase → Option ℚ)) (linhaFinal : Perfil)
    (perfilFinal : String) (h : HipoteseMontante) : Except String HipoteseMontante := do
  let novos ← calcula_tensao_axial_admissivel sq piQ linhaFinal h.forca_axial
    h.tipo h.comprimento_destravado coef (dFuroMont.getD (159 / 100))
    MODULO_ELASTICIDADE_ACO (decide (h.forca_axial > 0)) (decide (h.forca_axial < 0))
    descontos
  let esb ← calcular_esbeltez_corrigida TipoBarra.montante h.comprimento_destravado
    linhaFinal.rx_cm
  .ok { tipo := h.tipo, forca_axial := h.forca_axial,
        comprimento_destravado := h.comprimento_destravado,
        comprimento := h.comprimento, verif := novos, perfil_escolhido := perfilFinal,
        raio := linhaFinal.rx_cm, area_bruta := linhaFinal.a_cm2,
        esbeltez_corrigida := esb }

/-- Laço interno das linhas 183-218 sobre as hipóteses de uma barra. -/
def recalcularHipoteses (sq : ℚ → ℚ) (piQ coef : ℚ) (dFuroMont : Option ℚ)
    (descontos : Option (TipoBase → Option ℚ)) (linhaFinal : Perfil) (perfilFinal : String) :
    List HipoteseMontante → Except String (List HipoteseMontante)
  | [] => .ok []
  | h :: resto => do
    let h2 ← recalcularHipotese sq piQ coef dFuroMont descontos linhaFinal perfilFinal h
    let rs ← recalcularHipoteses sq piQ coef dFuroMont descontos linhaFinal perfilFinal resto
    .ok (h2 :: rs)

/-- Linhas 182-220 para uma barra: recalcula as hipóteses e grava o
`perfil_escolhido` da barra. -/
def recalcularBarra (sq : ℚ → ℚ) (piQ coef : ℚ) (dFuroMont : Option ℚ)
    (descontos : Option (TipoBase → Option ℚ)) (linhaFinal : Perfil) (perfilFinal : String)
    (b : BarraMontante) : Except String BarraMontante := do
  let hs ← recalcularHipoteses sq piQ coef dFuroMont descontos linhaFinal perfilFinal
    b.hipoteses
  .ok { perfil_escolhido := perfilFinal, hipoteses := hs }

/-- Laço das linhas 182-220 sobre as barras do módulo. -/
def recalcularBarras (sq : ℚ → ℚ) (piQ coef : ℚ) (dFuroMont : Option ℚ)
    (descontos : Option (TipoBase → Option ℚ)) (linhaFinal : Perfil) (perfilFinal : String) :
    List BarraMontante → Except String (List BarraMontante)
  | [] => .ok []
  | b :: resto => do
    let b2 ← recalcularBarra sq piQ coef dFuroMont descontos linhaFinal perfilFinal b
    let rs ← recalcularBarras sq piQ coef dFuroMont descontos linhaFinal perfilFinal resto
    .ok (b2 :: rs)

/-- Corpo do laço de módulos de `igualar_perfis_montantes_por_modulo`
(linhas 159-220): sem perfil encontrado no catálogo, `continue` (linhas
171-172); senão adota o perfil de maior área bruta (linha 175) e recalcula
todos os montantes do módulo com ele; o ramo `.error` modela o `.iloc[0]`
da linha 177 sobre consulta vazia. -/
def igualarModulo (sq : ℚ → ℚ) (piQ coef : ℚ) (dFuroMont : Option ℚ)
    (descontos : Option (TipoBase → Option ℚ)) (catalogo : String → Option Perfil)
    (barras : List BarraMontante) : Except String (List BarraMontante) :=
  match perfisAreas catalogo (barras.map BarraMontante.perfil_escolhido) with
  | [] => .ok barras
  | pa :: pas =>
    match catalogo (maxPorArea pa pas).2 with
    | none => .error "IndexError"
    | some linhaFinal =>
      recalcularBarras sq piQ coef dFuroMont descontos linhaFinal
        (maxPorArea pa pas).2 barras

theorem maxPorArea_cons (pa y : ℚ × String) (ys : List (ℚ × String)) :
    maxPorArea pa (y :: ys) = maxPorArea (if y.1 > pa.1 then y else pa) ys := rfl

theorem foldl_max_area :
    ∀ (resto : List (ℚ × String)) (pa : ℚ × String),
      (maxPorArea pa resto = pa ∨ maxPorArea pa resto ∈ resto) ∧
      pa.1 ≤ (maxPorArea pa resto).1 ∧
      ∀ x ∈ resto, x.1 ≤ (maxPorArea pa resto).1 := by
  intro resto
  induction resto with
  | nil => exact fun pa => ⟨Or.inl rfl, le_refl _, by simp⟩
  | cons y ys ih =>
    intro pa
    rw [maxPorArea_cons]
    by_cases hy : y.1 > pa.1
    · rw [if_pos hy]
      obtain ⟨ihm, ihle, ihall⟩ := ih y
      refine ⟨?_, le_trans hy.le ihle, fun x hx => ?_⟩
      · rcases ihm with h | h
        · exact Or.inr (by rw [h]; exact List.mem_cons_self _ _)
        · exact Or.inr (List.mem_cons_of_mem _ h)
      · rcases List.mem_cons.mp hx with rfl | hx'
        · exact ihle
        · exact ihall x hx'
    · rw [if_neg hy]
      obtain ⟨ihm, ihle, ihall⟩ := ih pa
      refine ⟨?_, ihle, fun x hx => ?_⟩
      · rcases ihm with h | h
        · exact Or.inl h
        · exact Or.inr (List.mem_cons_of_mem _ h)
      · rcases List.mem_cons.mp hx with rfl | hx'
        · exact le_trans (not_lt.mp hy) ihle
        · exact ihall x hx'

theorem maxPorArea_const (x : ℚ × String) :
    ∀ resto : List (ℚ × String), (∀ q ∈ resto, q = x) →
      ∀ pa, pa = x → maxPorArea pa resto = x := by
  intro resto
  induction resto with
  | nil => exact fun _ pa hpa => hpa
  | cons y ys ih =>
    intro hall pa hpa
    rw [maxPorArea_cons]
    have hy : y = x := hall y (List.mem_cons_self _ _)
    have hstep : (if y.1 > pa.1 then y else pa) = x := by
      rw [hy, hpa, if_neg (lt_irrefl x.1)]
    exact ih (fun q hq => hall q (List.mem_cons_of_mem _ hq)) _ hstep

theorem perfisAreas_mem (catalogo : String → Option Perfil) (nomes : List String)
    (q : ℚ × String) (hq : q ∈ perfisAreas catalogo nomes) :
    ∃ p, catalogo q.2 = some p ∧ q.1 = p.a_cm2 := by
  unfold perfisAreas at hq
  obtain ⟨nome, _, hmap⟩ := List.mem_filterMap.mp hq
  cases hcat : catalogo nome with
  | none =>
    rw [hcat] at hmap
    cases hmap
  | some p =>
    rw [hcat] at hmap
    simp only [Option.map_some', Option.some.injEq] at hmap
    rw [← hmap]
    exact ⟨p, hcat, rfl⟩

theorem perfisAreas_const (catalogo : String → Option Perfil) (nome : String) (p : Perfil)
    (hcat : catalogo nome = some p) (nomes : List String) (hall : ∀ n ∈ nomes, n = nome) :
    ∀ q ∈ perfisAreas catalogo nomes, q = (p.a_cm2, nome) := by
  intro q hq
  obtain ⟨n, hn, hmap⟩ := List.mem_filterMap.mp hq
  rw [hall n hn, hcat] at hmap
  simp only [Option.map_some', Option.some.injEq] at hmap
  exact hmap.symm

theorem recalcularHipotese_ok (sq : ℚ → ℚ) (piQ coef : ℚ) (dF : Option ℚ)
    (desc : Option (TipoBase → Option ℚ)) (lf : Perfil) (nomeF : String)
    (hsq : SqPos sq) (hpi : 0 < piQ) (hwf : PerfilBemFormado lf) (h : HipoteseMontante) :
    ∃ h2, recalcularHipotese sq piQ coef dF desc lf nomeF h = .ok h2 ∧
      h2.perfil_escolhido = nomeF := by
  obtain ⟨novos, hnovos⟩ := calcula_ok sq piQ lf h.forca_axial h.tipo
    h.comprimento_destravado coef (dF.getD (159 / 100)) MODULO_ELASTICIDADE_ACO
    (decide (h.forca_axial > 0)) (decide (h.forca_axial < 0)) desc hsq hpi moduloAcoPos hwf
  obtain ⟨esb, hesb⟩ := calcular_esbeltez_ok TipoBarra.montante h.comprimento_destravado
    lf.rx_cm hwf.2.1
  refine ⟨HipoteseMontante.mk h.tipo h.forca_axial h.comprimento_destravado h.comprimento
    novos nomeF lf.rx_cm lf.a_cm2 esb, ?_, rfl⟩
  unfold recalcularHipotese
  rw [hnovos]
  simp only [bindOk]
  rw [hesb]
  simp only [bindOk]

theorem recalcularHipoteses_ok (sq : ℚ → ℚ) (piQ coef : ℚ) (dF : Option ℚ)
    (desc : Option (TipoBase → Option ℚ)) (lf : Perfil) (nomeF : String)
    (hsq : SqPos sq) (hpi : 0 < piQ) (hwf : PerfilBemFormado lf) :
    ∀ hs : List HipoteseMontante,
      ∃ hs2, recalcularHipoteses sq piQ coef dF desc lf nomeF hs = .ok hs2 ∧
        ∀ h2 ∈ hs2, h2.perfil_escolhido = nomeF := by
  intro hs
  induction hs with
  | nil => exact ⟨[], rfl, by simp⟩
  | cons h resto ih =>
    obtain ⟨h2, hh2, hperf⟩ := recalcularHipotese_ok sq piQ coef dF desc lf nomeF hsq hpi hwf h
    obtain ⟨hs2, hhs2, hall⟩ := ih
    refine ⟨h2 :: hs2, ?_, ?_⟩
    · show (recalcularHipotese sq piQ coef dF desc lf nomeF h >>= fun h2 =>
        recalcularHipoteses sq piQ coef dF desc lf nomeF resto >>= fun rs =>
          .ok (h2 :: rs)) = .ok (h2 :: hs2)
      rw [hh2, bindOk, hhs2, bindOk]
    · intro x hx
      rcases List.mem_cons.mp hx with rfl | hx'
      · exact hperf
      · exact hall x hx'

theorem recalcularBarra_ok (sq : ℚ → ℚ) (piQ coef : ℚ) (dF : Option ℚ)
    (desc : Option (TipoBase → Option ℚ)) (lf : Perfil) (nomeF : String)
    (hsq : SqPos sq) (hpi : 0 < piQ) (hwf : PerfilBemFormado lf) (b : BarraMontante) :
    ∃ b2, recalcularBarra sq piQ coef dF desc lf nomeF b = .ok b2 ∧
      b2.perfil_escolhido = nomeF ∧ ∀ h2 ∈ b2.hipoteses, h2.perfil_escolhido = nomeF := by
  obtain ⟨hs2, hhs2, hall⟩ :=
    recalcularHipoteses_ok sq piQ coef dF desc lf nomeF hsq hpi hwf b.hipoteses
  refine ⟨{ perfil_escolhido := nomeF, hipoteses := hs2 }, ?_, rfl, hall⟩
  show (recalcularHipoteses sq piQ coef dF desc lf nomeF b.hipoteses >>= fun hs =>
    (Except.ok { perfil_escolhido := nomeF, hipoteses := hs } :
      Except String BarraMontante)) =
    Except.ok { perfil_escolhido := nomeF, hipoteses := hs2 }
  rw [hhs2, bindOk]

theorem recalcularBarras_ok (sq : ℚ → ℚ) (piQ coef : ℚ) (dF : Option ℚ)
    (desc : Option (TipoBase → Option ℚ)) (lf : Perfil) (nomeF : String)
    (hsq : SqPos sq) (hpi : 0 < piQ) (hwf : PerfilBemFormado lf) :
    ∀ bs : List BarraMontante,
      ∃ bs2, recalcularBarras sq piQ coef dF desc lf nomeF bs = .ok bs2 ∧
        bs2.length = bs.length ∧
        ∀ b2 ∈ bs2, b2.perfil_escolhido = nomeF ∧
          ∀ h2 ∈ b2.hipoteses, h2.perfil_escolhido = nomeF := by
  intro bs
  induction bs with
  | nil => exact ⟨[], rfl, rfl, by simp⟩
  | cons b resto ih =>
    obtain ⟨b2, hb2, hbperf, hbhips⟩ :=
      recalcularBarra_ok sq piQ coef dF desc lf nomeF hsq hpi hwf b
    obtain ⟨bs2, hbs2, hlen, hall⟩ := ih
    refine ⟨b2 :: bs2, ?_, by simp [hlen], ?_⟩
    · show (recalcularBarra sq piQ coef dF desc lf nomeF b >>= fun b2 =>
        recalcularBarras sq piQ coef dF desc lf nomeF resto >>= fun rs =>
          .ok (b2 :: rs)) = .ok (b2 :: bs2)
      rw [hb2, bindOk, hbs2, bindOk]
    · intro x hx
      rcases List.mem_cons.mp hx with rfl | hx'
      · exact ⟨hbperf, hbhips⟩
      · exact hall x hx'

theorem map_perfil_const (nome : String) :
    ∀ bs : List BarraMontante, (∀ b ∈ bs, b.perfil_escolhido = nome) →
      bs.map BarraMontante.perfil_escolhido = List.replicate bs.length nome := by
  intro bs
  induction bs with
  | nil => exact fun _ => rfl
  | cons b resto ih =>
    intro hall
    rw [List.map_cons, List.length_cons, List.replicate_succ,
      hall b (List.mem_cons_self _ _), ih fun x hx => hall x (List.mem_cons_of_mem _ hx)]

/-- **C8.** A igualação de perfis por módulo, com catálogo bem formado:
adota para todos os montantes do módulo (e para cada uma de suas hipóteses) o
perfil de área bruta máxima entre os perfis usados pelos montantes do módulo
encontrados no catálogo, reverificando cada hipótese com ele; módulos sem
perfil encontrado no catálogo ficam intactos; e a operação é idempotente nos
perfis: aplicada a um módulo já igualado (todas as barras com o mesmo perfil,
presente no catálogo), não altera o perfil escolhido de nenhuma barra. -/
theorem claim_C8 (sq : ℚ → ℚ) (piQ coef : ℚ) (dF : Option ℚ)
    (desc : Option (TipoBase → Option ℚ)) (catalogo : String → Option Perfil)
    (hsq : SqPos sq) (hpi : 0 < piQ)
    (hcat : ∀ nome p, catalogo nome = some p → PerfilBemFormado p) :
    (∀ barras : List BarraMontante,
      ∃ barras2, igualarModulo sq piQ coef dF desc catalogo barras = .ok barras2 ∧
        ((perfisAreas catalogo (barras.map BarraMontante.perfil_escolhido) = [] ∧
            barras2 = barras) ∨
          ∃ area nome,
            (area, nome) ∈ perfisAreas catalogo (barras.map BarraMontante.perfil_escolhido) ∧
            (∀ q ∈ perfisAreas catalogo (barras.map BarraMontante.perfil_escolhido),
              q.1 ≤ area) ∧
            ∀ b ∈ barras2, b.perfil_escolhido = nome ∧
              ∀ h ∈ b.hipoteses, h.perfil_escolhido = nome)) ∧
    (∀ (barras : List BarraMontante) (nome : String) (p : Perfil),
      catalogo nome = some p → (∀ b ∈ barras, b.perfil_escolhido = nome) →
      ∃ barras2, igualarModulo sq piQ coef dF desc catalogo barras = .ok barras2 ∧
        barras2.map BarraMontante.perfil_escolhido =
          barras.map BarraMontante.perfil_escolhido) := by
  have hpasso : ∀ (barras : List BarraMontante) (pa : ℚ × String)
      (pas : List (ℚ × String)),
      perfisAreas catalogo (barras.map BarraMontante.perfil_escolhido) = pa :: pas →
      ∃ barras2, igualarModulo sq piQ coef dF desc catalogo barras = .ok barras2 ∧
        barras2.length = barras.length ∧
        ∀ b ∈ barras2, b.perfil_escolhido = (maxPorArea pa pas).2 ∧
          ∀ h ∈ b.hipoteses, h.perfil_escolhido = (maxPorArea pa pas).2 := by
    intro barras pa pas hpa
    have hmax_mem : maxPorArea pa pas ∈
        perfisAreas catalogo (barras.map BarraMontante.perfil_escolhido) := by
      rw [hpa]
      rcases (foldl_max_area pas pa).1 with h | h
      · rw [h]
        exact List.mem_cons_self _ _
      · exact List.mem_cons_of_mem _ h
    obtain ⟨lf, hlf, _⟩ := perfisAreas_mem catalogo _ _ hmax_mem
    obtain ⟨bs2, hbs2, hlen, hall⟩ := recalcularBarras_ok sq piQ coef dF desc lf
      (maxPorArea pa pas).2 hsq hpi (hcat _ _ hlf) barras
    refine ⟨bs2, ?_, hlen, hall⟩
    unfold igualarModulo
    rw [hpa]
    show (match catalogo (maxPorArea pa pas).2 with
      | none => (Except.error "IndexError" : Except String (List BarraMontante))
      | some linhaFinal => recalcularBarras sq piQ coef dF desc linhaFinal
          (maxPorArea pa pas).2 barras) = Except.ok bs2
    rw [hlf]
    exact hbs2
  constructor
  · intro barras
    cases hpa : perfisAreas catalogo (barras.map BarraMontante.perfil_escolhido) with
    | nil =>
      refine ⟨barras, ?_, Or.inl ⟨rfl, rfl⟩⟩
      unfold igualarModulo
      rw [hpa]
    | cons pa pas =>
      obtain ⟨barras2, hig, _, hall⟩ := hpasso barras pa pas hpa
      refine ⟨barras2, hig, Or.inr ⟨(maxPorArea pa pas).1, (maxPorArea pa pas).2, ?_, ?_, hall⟩⟩
      · rw [Prod.mk.eta]
        rcases (foldl_max_area pas pa).1 with h | h
        · rw [h]
          exact List.mem_cons_self _ _
        · exact List.mem_cons_of_mem _ h
      · intro q hq
        rcases List.mem_cons.mp hq with hq1 | hq'
        · rw [hq1]
          exact (foldl_max_area pas pa).2.1
        · exact (foldl_max_area pas pa).2.2 q hq'
  · intro barras nome p hp hallperf
    cases hpa : perfisAreas catalogo (barras.map BarraMontante.perfil_escolhido) with
    | nil =>
      refine ⟨barras, ?_, rfl⟩
      unfold igualarModulo
      rw [hpa]
    | cons pa pas =>
      have hconst : ∀ q ∈ perfisAreas catalogo (barras.map BarraMontante.perfil_escolhido),
          q = (p.a_cm2, nome) := by
        refine perfisAreas_const catalogo nome p hp _ ?_
        intro n hn
        obtain ⟨b, hb, hbn⟩ := List.mem_map.mp hn
        rw [← hbn]
        exact hallperf b hb
      have hmax : maxPorArea pa pas = (p.a_cm2, nome) := by
        refine maxPorArea_const _ pas ?_ pa ?_
        · intro q hq
          exact hconst q (by rw [hpa]; exact List.mem_cons_of_mem _ hq)
        · exact hconst pa (by rw [hpa]; exact List.mem_cons_self _ _)
      obtain ⟨barras2, hig, hlen, hall⟩ := hpasso barras pa pas hpa
      refine ⟨barras2, hig, ?_⟩
      rw [map_perfil_const _ barras2 (fun b hb => by rw [(hall b hb).1, hmax]),
        map_perfil_const nome barras hallperf, hlen]

def catalogoExemplo : String → Option Perfil :=
  fun nome => if nome = "P1" then some perfilExemplo else none

def barrasExemplo : List BarraMontante :=
  [{ perfil_escolhido := "P1", hipoteses := [] }]

theorem catalogoExemplo_bemFormado :
    ∀ nome p, catalogoExemplo nome = some p → PerfilBemFormado p := by
  intro nome p hp
  unfold catalogoExemplo at hp
  by_cases hn : nome = "P1"
  · rw [if_pos hn] at hp
    injection hp with e
    rw [← e]
    exact perfilExemplo_bemFormado
  · rw [if_neg hn] at hp
    cases hp

theorem claim_C8_witness :
    ∃ barras2, igualarModulo (fun x : ℚ => x) 3 (9 / 10) none none catalogoExemplo
        barrasExemplo = .ok barras2 ∧
      ((perfisAreas catalogoExemplo (barrasExemplo.map BarraMontante.perfil_escolhido) = [] ∧
          barras2 = barrasExemplo) ∨
        ∃ area nome,
          (area, nome) ∈ perfisAreas catalogoExemplo
            (barrasExemplo.map BarraMontante.perfil_escolhido) ∧
          (∀ q ∈ perfisAreas catalogoExemplo
            (barrasExemplo.map BarraMontante.perfil_escolhido), q.1 ≤ area) ∧
          ∀ b ∈ barras2, b.perfil_escolhido = nome ∧
            ∀ h ∈ b.hipoteses, h.perfil_escolhido = nome) :=
  (claim_C8 (fun x : ℚ => x) 3 (9 / 10) none none catalogoExemplo sqPos_id (by norm_num)
    catalogoExemplo_bemFormado).1 barrasExemplo

/-! ## Desfecho de `dimensionar_barras` (`src/dimensionamento.py`, linhas 395-1024) -/

theorem maxPorChave_cons2 (chave : HipoteseResultado → ℚ) (h y : HipoteseResultado)
    (ys : List HipoteseResultado) :
    maxPorChave chave h (y :: ys) =
      maxPorChave chave (if chave y > chave h then y else h) ys := rfl

theorem maxPorChave_mem (chave : HipoteseResultado → ℚ) :
    ∀ (resto : List HipoteseResultado) (h : HipoteseResultado),
      maxPorChave chave h resto = h ∨ maxPorChave chave h resto ∈ resto := by
  intro resto
  induction resto with
  | nil => exact fun h => Or.inl rfl
  | cons y ys ih =>
    intro h
    rw [maxPorChave_cons2]
    by_cases hy : chave y > chave h
    · rw [if_pos hy]
      rcases ih y with h1 | h1
      · exact Or.inr (by rw [h1]; exact List.mem_cons_self _ _)
      · exact Or.inr (List.mem_cons_of_mem _ h1)
    · rw [if_neg hy]
      rcases ih h with h1 | h1
      · exact Or.inl h1
      · exact Or.inr (List.mem_cons_of_mem _ h1)

/-- Forma dos registros de hipótese produzidos pela varredura (linhas 523-552
de `dimensionamento.py`): uma hipótese sem perfil viável recebe
`perfil_escolhido = "NENHUM"` e `area_bruta = 0.0` (linhas 525-533); uma
hipótese viável recebe a área bruta positiva do catálogo (linhas 536-552). -/
def HipoteseDaVarredura (h : HipoteseResultado) : Prop :=
  (h.perfil_escolhido = "NENHUM" → h.area_bruta = 0) ∧
  (h.perfil_escolhido ≠ "NENHUM" → 0 < h.area_bruta)

/-- `resultado_final` restrito ao perfil por barra (linhas 405-719): a hipótese
crítica é escolhida por `escolherHipotese` (linhas 567-604) e uma barra sem
hipótese viável é descartada em silêncio pelo `continue` da linha 594 — nenhum
registro é gravado para ela. -/
def resultadoFinalPerfis
    (barras : List (String × HipoteseResultado × HipoteseResultado)) :
    List (String × String) :=
  barras.filterMap fun b =>
    (escolherHipotese [b.2.1, b.2.2]).map fun h => (b.1, h.perfil_escolhido)

/-- `not lig.get("ligacao_viavel", False)` sobre um valor de `ligacoes_forcadas`
(linhas 757-759): o marcador inviável de duas chaves tem a flag `False`. -/
def ligInviavelFlag : Option LigAtribuida → Bool
  | some (.completa lig) => !lig.ligacao_viavel
  | some .inviavel => true
  | none => false

/-- Decisões de `dimensionar_barras` após a chamada de
`otimizar_ligacoes_montantes_extremidades` (linhas 757-1024): checagem das
ligações forçadas, laço de reforço, revalidação 7-3 e verificação final 7-5,
com a montagem da tripla de sucesso resumida em `saida`. -/
def desfechoAposLigacoes {σ α β γ : Type} (grupos : List Grupo)
    (ligForcadas : String → Option LigAtribuida)
    (passoReforco : σ → σ × Bool) (s0 : σ)
    (revalidacoesViaveis : List (String × Bool)) (txLigFinais : List (String × ℚ))
    (saida : σ → α × β × γ) (interromper : Bool) :
    Except PyExc (Option α × Option β × Option γ) :=
  if grupos.any fun gr => gr.ids.any fun id => ligInviavelFlag (ligForcadas id) then
    if interromper then
      .error (.valueError "Pelo menos uma ligação de montante ficou inviável.")
    else .ok (none, none, none)
  else
    match reforcoDesfecho passoReforco s0 interromper with
    | .error e => .error e
    | .ok none => .ok (none, none, none)
    | .ok (some s) =>
      if interromper = true ∧ (revalidacoesViaveis.any fun r => !r.2) = true then
        .error (.valueError "Após reforço da ligação, uma barra reprovou.")
      else if txLigFinais.any fun l => l.2 > 1 then
        if interromper then
          .error (.valueError "Ligação ainda reprovada após reforço.")
        else .ok (none, none, none)
      else .ok (some (saida s).1, some (saida s).2.1, some (saida s).2.2)

/-- Esqueleto de controle de `dimensionar_barras`: a varredura por barra
(resumida em `resultadoFinalPerfis`), a checagem `barras_sem_perfil`
(linhas 721-734), a chamada de `otimizar_ligacoes_montantes_extremidades`
(linhas 744-752, modelada por `processarGrupos`, cujas exceções atravessam a
função, que não tem `try/except`) e as decisões seguintes. O valor devolvido
modela a tripla `(resultado_final, ligacoes_forcadas, ids_ligacao_necessaria)`:
componentes `some` no sucesso, `(none, none, none)` no modo brando inviável,
`.error` para `raise`. -/
def dimensionarBarrasDesfecho {σ α β γ : Type}
    (barras : List (String × HipoteseResultado × HipoteseResultado))
    (fuelLig : ℕ) (grupos : List Grupo)
    (passoReforco : σ → σ × Bool) (s0 : σ)
    (revalidacoesViaveis : List (String × Bool))
    (txLigFinais : List (String × ℚ))
    (saida : σ → α × β × γ)
    (interromper : Bool) : Except PyExc (Option α × Option β × Option γ) :=
  if ((resultadoFinalPerfis barras).filter fun b => b.2 = "NENHUM").map Prod.fst ≠ [] then
    if interromper then
      .error (.valueError
        "Dimensionamento inviável! As barras a seguir não obtiveram perfil.")
    else .ok (none, none, none)
  else
    match processarGrupos fuelLig grupos (fun _ => none) with
    | .error msg => .error (.excecaoPropagada msg)
    | .ok ligForcadas =>
      desfechoAposLigacoes grupos ligForcadas passoReforco s0 revalidacoesViaveis
        txLigFinais saida interromper

/-- O perfil gravado pela etapa 4 nunca é `"NENHUM"`: hipóteses de perfis
iguais filtram as inviáveis (linhas 587-596, com `continue` quando não sobra
nenhuma) e, entre perfis diferentes, a hipótese `"NENHUM"` tem área bruta `0.0`
e perde o `max` por área bruta para a hipótese de perfil real (linhas
597-601). -/
theorem escolherHipotese_sem_nenhum (h0 h1 : HipoteseResultado)
    (hf0 : HipoteseDaVarredura h0) (hf1 : HipoteseDaVarredura h1)
    (h : HipoteseResultado) (hesc : escolherHipotese [h0, h1] = some h) :
    h.perfil_escolhido ≠ "NENHUM" := by
  rw [escolherHipotese_par] at hesc
  by_cases heq : h0.perfil_escolhido = h1.perfil_escolhido
  · rw [if_pos heq] at hesc
    cases hfil : List.filter (fun d => d.perfil_escolhido ≠ "NENHUM")
        ([h0, h1] : List HipoteseResultado) with
    | nil =>
      rw [hfil] at hesc
      have hesc' : (none : Option HipoteseResultado) = some h := hesc
      cases hesc'
    | cons v vs =>
      rw [hfil] at hesc
      have hesc' : some (maxPorChave areaTrabalho v vs) = some h := hesc
      injection hesc' with h2
      have hmem : h ∈ List.filter (fun d => d.perfil_escolhido ≠ "NENHUM")
          ([h0, h1] : List HipoteseResultado) := by
        rw [hfil, ← h2]
        rcases maxPorChave_mem areaTrabalho vs v with hm | hm
        · rw [hm]
          exact List.mem_cons_self _ _
        · exact List.mem_cons_of_mem _ hm
      have hp := List.of_mem_filter hmem
      simpa using hp
  · rw [if_neg heq] at hesc
    injection hesc with h2
    rw [← h2]
    simp only [maxPorChave, List.foldl_cons, List.foldl_nil]
    by_cases h0n : h0.perfil_escolhido = "NENHUM"
    · have h1n : h1.perfil_escolhido ≠ "NENHUM" := fun hc => heq (by rw [h0n, hc])
      have harea : h1.area_bruta > h0.area_bruta := by
        rw [hf0.1 h0n]
        exact hf1.2 h1n
      rw [if_pos harea]
      exact h1n
    · by_cases h1n : h1.perfil_escolhido = "NENHUM"
      · have hng : ¬(h1.area_bruta > h0.area_bruta) := by
          rw [hf1.1 h1n]
          exact not_lt.mpr (hf0.2 h0n).le
        rw [if_neg hng]
        exact h0n
      · by_cases hgt : h1.area_bruta > h0.area_bruta
        · rw [if_pos hgt]
          exact h1n
        · rw [if_neg hgt]
          exact h0n

/-- `resultado_final` nunca contém um `perfil_escolhido = "NENHUM"`: a
checagem `barras_sem_perfil` das linhas 721-726 coleta sempre a lista vazia e
o retorno brando das linhas 728-734 é inalcançável. -/
theorem resultadoFinal_sem_nenhum
    (barras : List (String × HipoteseResultado × HipoteseResultado))
    (hforma : ∀ b ∈ barras, HipoteseDaVarredura b.2.1 ∧ HipoteseDaVarredura b.2.2) :
    (resultadoFinalPerfis barras).filter (fun b => b.2 = "NENHUM") = [] := by
  refine List.eq_nil_iff_forall_not_mem.mpr fun b hb => ?_
  have hb2 := List.of_mem_filter hb
  have hb1 := List.mem_of_mem_filter hb
  obtain ⟨b0, hb0, hmap⟩ := List.mem_filterMap.mp hb1
  cases hesc : escolherHipotese [b0.2.1, b0.2.2] with
  | none =>
    rw [hesc] at hmap
    cases hmap
  | some h =>
    rw [hesc] at hmap
    simp only [Option.map_some', Option.some.injEq] at hmap
    have hne := escolherHipotese_sem_nenhum b0.2.1 b0.2.2 (hforma b0 hb0).1
      (hforma b0 hb0).2 h hesc
    rw [← hmap] at hb2
    simp at hb2
    exact hne hb2

/-- **C1 (emendada).** No modo brando (`interromper_se_inviavel = False`), com
hipóteses na forma que a varredura produz: (i) a inviabilidade "barra sem
perfil viável em qualquer hipótese" nunca chega à tripla `(None, None, None)` —
a barra é descartada em silêncio pelo `continue` da linha 594, `resultado_final`
nunca contém `"NENHUM"`, a checagem das linhas 721-726 coleta a lista vazia e o
retorno brando das linhas 728-734 é código morto, de modo que a função segue e
pode devolver saídas parciais não-`None` sem a barra inviável (ver o
contraexemplo); (ii) a função PODE levantar exceção no modo brando: um
`ZeroDivisionError` da subchamada `otimizar_ligacoes_montantes_extremidades`
(reforço com espessura `metadados.get("t", 0.0) = 0.0`) atravessa
`dimensionar_barras`, que não tem `try/except`; (iii) quando essa subchamada
devolve sem exceção, o modo brando não levanta exceção nas etapas restantes e
cada inviabilidade detectada — ligação forçada inviável ou reforço sem
convergência — devolve a tripla `(None, None, None)`. -/
theorem claim_C1 {σ α β γ : Type}
    (barras : List (String × HipoteseResultado × HipoteseResultado))
    (fuelLig : ℕ) (grupos : List Grupo) (passoReforco : σ → σ × Bool) (s0 : σ)
    (revalidacoesViaveis : List (String × Bool)) (txLigFinais : List (String × ℚ))
    (saida : σ → α × β × γ)
    (hforma : ∀ b ∈ barras, HipoteseDaVarredura b.2.1 ∧ HipoteseDaVarredura b.2.2) :
    (resultadoFinalPerfis barras).filter (fun b => b.2 = "NENHUM") = [] ∧
    (∀ msg, processarGrupos fuelLig grupos (fun _ => none) = .error msg →
      dimensionarBarrasDesfecho barras fuelLig grupos passoReforco s0
        revalidacoesViaveis txLigFinais saida false = .error (.excecaoPropagada msg)) ∧
    (∀ lf, processarGrupos fuelLig grupos (fun _ => none) = .ok lf →
      (∃ out, dimensionarBarrasDesfecho barras fuelLig grupos passoReforco s0
        revalidacoesViaveis txLigFinais saida false = .ok out) ∧
      (((grupos.any fun gr => gr.ids.any fun id => ligInviavelFlag (lf id)) = true ∨
          (loopReforco passoReforco 10 s0).2.1 = false) →
        dimensionarBarrasDesfecho barras fuelLig grupos passoReforco s0
          revalidacoesViaveis txLigFinais saida false = .ok (none, none, none))) := by
  have hnil := resultadoFinal_sem_nenhum barras hforma
  have hguard :
      ¬(((resultadoFinalPerfis barras).filter fun b => b.2 = "NENHUM").map Prod.fst ≠ []) := by
    rw [hnil]
    simp
  refine ⟨hnil, ?_, ?_⟩
  · intro msg hmsg
    unfold dimensionarBarrasDesfecho
    rw [if_neg hguard, hmsg]
  · intro lf hlf
    have hred : dimensionarBarrasDesfecho barras fuelLig grupos passoReforco s0
        revalidacoesViaveis txLigFinais saida false =
        desfechoAposLigacoes grupos lf passoReforco s0 revalidacoesViaveis txLigFinais
          saida false := by
      unfold dimensionarBarrasDesfecho
      rw [if_neg hguard, hlf]
    rw [hred]
    constructor
    · unfold desfechoAposLigacoes
      by_cases cflag : (grupos.any fun gr => gr.ids.any fun id =>
          ligInviavelFlag (lf id)) = true
      · rw [if_pos cflag]
        exact ⟨(none, none, none), rfl⟩
      · rw [if_neg cflag]
        by_cases c3 : (loopReforco passoReforco 10 s0).2.1 = true
        · have hdesf : reforcoDesfecho passoReforco s0 false =
              .ok (some (loopReforco passoReforco 10 s0).1) := by
            simp only [reforcoDesfecho]
            rw [if_pos c3]
          rw [hdesf]
          by_cases c4 : (txLigFinais.any fun l => l.2 > 1) = true
          · exact ⟨(none, none, none), by simp [c4]⟩
          · exact ⟨(some (saida (loopReforco passoReforco 10 s0).1).1,
              some (saida (loopReforco passoReforco 10 s0).1).2.1,
              some (saida (loopReforco passoReforco 10 s0).1).2.2), by simp [c4]⟩
        · have hc3 : (loopReforco passoReforco 10 s0).2.1 = false := by
            cases hval : (loopReforco passoReforco 10 s0).2.1
            · rfl
            · exact absurd hval c3
          have hdesf : reforcoDesfecho passoReforco s0 false = .ok none := by
            simp only [reforcoDesfecho]
            rw [hc3]
            rfl
          rw [hdesf]
          exact ⟨(none, none, none), rfl⟩
    · rintro (hflag | hnoconv)
      · unfold desfechoAposLigacoes
        rw [if_pos hflag]
        rfl
      · unfold desfechoAposLigacoes
        by_cases cflag : (grupos.any fun gr => gr.ids.any fun id =>
            ligInviavelFlag (lf id)) = true
        · rw [if_pos cflag]
          rfl
        · rw [if_neg cflag]
          have hdesf : reforcoDesfecho passoReforco s0 false = .ok none := by
            simp only [reforcoDesfecho]
            rw [hnoconv]
            rfl
          rw [hdesf]

/-- Hipótese inviável como a varredura a grava (linhas 525-533). -/
def hipNenhumExemplo : HipoteseResultado :=
  { nome := "hip_1_c", perfil_escolhido := "NENHUM", area_bruta := 0,
    solicitacao := Solicitacao.compressao, forca_axial := -100,
    fa_reduzido := none, ft_admissivel := none }

/-- Hipótese viável como a varredura a grava (linhas 536-552). -/
def hipViavelExemplo : HipoteseResultado :=
  { nome := "hip_1_t", perfil_escolhido := "P1", area_bruta := 10,
    solicitacao := Solicitacao.tracao, forca_axial := 100,
    fa_reduzido := none, ft_admissivel := some 100 }

theorem hipotesesExemplo_forma :
    HipoteseDaVarredura hipViavelExemplo ∧ HipoteseDaVarredura hipNenhumExemplo := by
  constructor
  · exact ⟨fun h => absurd h (by decide), fun _ => by norm_num [hipViavelExemplo]⟩
  · exact ⟨fun _ => rfl, fun h => absurd rfl h⟩

/-- Contraexemplo de **C1**: (a) uma barra cujas duas hipóteses são "NENHUM" é
descartada em silêncio e a função devolve uma tripla não-`None` — não
`(None, None, None)` como afirma a alegação original; (b) no modo brando a
subchamada de ligações de extremidade levanta `ZeroDivisionError` (reforço com
espessura `metadados.get("t", 0.0) = 0.0`) e a exceção atravessa
`dimensionar_barras` — contrariando "nunca levanta exceção nesse modo". -/
theorem claim_C1_contraexemplo :
    (dimensionarBarrasDesfecho [("01", hipNenhumExemplo, hipNenhumExemplo)] 1 []
        (fun s : Unit => (s, true)) () [] [] (fun _ => ((), (), ())) false =
      .ok (some (), some (), some ())) ∧
    (dimensionarBarrasDesfecho
        ([] : List (String × HipoteseResultado × HipoteseResultado)) 1
        [grupoEspessuraZero] (fun s : Unit => (s, true)) () [] []
        (fun _ => ((), (), ())) false =
      .error (.excecaoPropagada "ZeroDivisionError")) := by
  constructor
  · rfl
  · show (match processarGrupos 1 [grupoEspessuraZero] (fun _ => none) with
      | .error msg =>
        (.error (.excecaoPropagada msg) : Except PyExc (Option Unit × Option Unit × Option Unit))
      | .ok ligForcadas =>
        desfechoAposLigacoes [grupoEspessuraZero] ligForcadas (fun s : Unit => (s, true)) ()
          [] [] (fun _ => ((), (), ())) false) =
      .error (.excecaoPropagada "ZeroDivisionError")
    rw [processarGrupos_espessura_zero]

theorem claim_C1_witness :
    ((resultadoFinalPerfis [("01", hipViavelExemplo, hipNenhumExemplo)]).filter
      (fun b => b.2 = "NENHUM") = []) ∧
    ∃ out, dimensionarBarrasDesfecho [("01", hipViavelExemplo, hipNenhumExemplo)] 1 []
      (fun s : Unit => (s, true)) () [] [] (fun _ => ((), (), ())) false = .ok out := by
  have hforma : ∀ b ∈ [("01", hipViavelExemplo, hipNenhumExemplo)],
      HipoteseDaVarredura b.2.1 ∧ HipoteseDaVarredura b.2.2 := by
    intro b hb
    rw [List.mem_singleton.mp hb]
    exact hipotesesExemplo_forma
  obtain ⟨h1, _, h3⟩ := claim_C1 [("01", hipViavelExemplo, hipNenhumExemplo)] 1 []
    (fun s : Unit => (s, true)) () [] [] (fun _ => ((), (), ())) hforma
  exact ⟨h1, (h3 (fun _ => none) rfl).1⟩

end Trusspoles
